import Mathlib

/-!
Verification of the rotate-jpeg command-line utility.

This file gives a shallow embedding, in Lean 4, of the two Python source
files of the repository, `src/rotate.py` and `src/rotate_jpeg.py`, and proves
properties of that embedding.

Modelling conventions:
* The filesystem is an association list from path strings to entries
  (regular files with a byte list as content, or directories).  `os.path`
  functions (`dirname`, `basename`, `splitext`, `join`, `exists`, `isfile`,
  `isdir`, `getsize`) are reimplemented over this model following the
  CPython `posixpath` semantics.
* The external processes (`jpegtran`, `magick convert`, `osascript`) are
  modelled by oracle values carried in a context record: the tool's exit
  status, its captured stderr, and the state in which it leaves its output
  file.  Filesystem permission failures (temporary-file creation, `makedirs`,
  `shutil.copy`) are likewise modelled by boolean oracles in the context.
* Python string operations used by the sources (`str.lower`, `str.strip`,
  `str.split()`, `str.replace`, `' '.join`) are reimplemented structurally so
  that everything is executable and kernel-reducible.
* `print` output is accumulated in a `List String` of printed lines;
  `sys.exit` and process termination are explicit outcome values.
-/

namespace RotateSpec

/-! ## Python string primitives -/

/-- Python `str.lower` restricted to the ASCII range, which is all the
sources rely on (`Char.toLower` lowercases exactly `A`-`Z`). -/
def pyLower (s : String) : String :=
  ⟨s.data.map Char.toLower⟩

/-- The six characters Python `str.split()` / `str.strip()` treat as
whitespace. -/
def isPyWs (c : Char) : Bool :=
  c = ' ' || c = '\t' || c = '\n' || c = '\r' || c = '\x0b' || c = '\x0c'

/-- Python `str.strip()`: drop leading and trailing whitespace. -/
def pyStrip (s : String) : String :=
  ⟨(((s.data.dropWhile isPyWs).reverse.dropWhile isPyWs).reverse : List Char)⟩

/-- Helper for `pySplit`: accumulate the current word (reversed) while
scanning. -/
def pySplitAux : List Char → List Char → List (List Char)
  | [], acc => if acc = [] then [] else [acc.reverse]
  | c :: cs, acc =>
    if isPyWs c then
      if acc = [] then pySplitAux cs [] else acc.reverse :: pySplitAux cs []
    else
      pySplitAux cs (c :: acc)

/-- Python `str.split()` with no separator: split on runs of whitespace,
discarding empty words. -/
def pySplit (s : String) : List String :=
  (pySplitAux s.data []).map (fun l => ⟨l⟩)

/-- Python `sep.join(xs)`. -/
def pyJoin (sep : String) : List String → String
  | [] => ""
  | [x] => x
  | x :: y :: xs => x ++ sep ++ pyJoin sep (y :: xs)

/-- Does `l` start with `p`? -/
def listIsPrefixOf : List Char → List Char → Bool
  | [], _ => true
  | _ :: _, [] => false
  | p :: ps, c :: cs => p = c && listIsPrefixOf ps cs

/-- Fuel-indexed core of Python `str.replace`: scan left to right, replacing
non-overlapping occurrences of `pat` (assumed non-empty) by `rep`.  The fuel
starts at the length of the scanned list, which is enough; it only makes the
recursion structural. -/
def pyReplaceAux (pat rep : List Char) : Nat → List Char → List Char
  | 0, l => l
  | _ + 1, [] => []
  | n + 1, c :: cs =>
    if pat ≠ [] && listIsPrefixOf pat (c :: cs) then
      rep ++ pyReplaceAux pat rep n ((c :: cs).drop pat.length)
    else
      c :: pyReplaceAux pat rep n cs

/-- Python `s.replace(pat, rep)` for a non-empty pattern. -/
def pyReplace (s pat rep : String) : String :=
  ⟨pyReplaceAux pat.data rep.data s.data.length s.data⟩

/-! ## `os.path` primitives (posixpath semantics) -/

/-- Index of the last occurrence of `c` in `l`, if any. -/
def rfindIdxAux (c : Char) : List Char → Nat → Option Nat
  | [], _ => none
  | x :: xs, i =>
    match rfindIdxAux c xs (i + 1) with
    | some j => some j
    | none => if x = c then some i else none

/-- `l.rfind c` as an `Option`. -/
def rfindIdx (l : List Char) (c : Char) : Option Nat :=
  rfindIdxAux c l 0

/-- `l.rfind c` with Python's `-1` convention for "not found". -/
def rfindInt (l : List Char) (c : Char) : Int :=
  match rfindIdx l c with
  | some i => (i : Int)
  | none => -1

/-- `posixpath.splitext` on the character list: split at the last dot,
provided it comes after the last path separator and some character strictly
between the separator and that dot is not itself a dot (so names such as
`.bashrc` keep no extension). -/
def splitextList (l : List Char) : List Char × List Char :=
  let sepIdx := rfindInt l '/'
  let dotIdx := rfindInt l '.'
  if sepIdx < dotIdx then
    let d := dotIdx.toNat
    let s := (sepIdx + 1).toNat
    if ((l.take d).drop s).any (fun ch => ch ≠ '.') then
      (l.take d, l.drop d)
    else
      (l, [])
  else
    (l, [])

/-- `os.path.splitext`. -/
def splitext (p : String) : String × String :=
  ((⟨(splitextList p.data).1⟩ : String), (⟨(splitextList p.data).2⟩ : String))

/-- `os.path.dirname` (posixpath): everything up to the last `/`, with
trailing slashes stripped unless the head is all slashes. -/
def dirname (p : String) : String :=
  match rfindIdx p.data '/' with
  | none => ""
  | some i =>
    let head := p.data.take (i + 1)
    if head.all (fun ch => ch = '/') then (⟨head⟩ : String)
    else (⟨(head.reverse.dropWhile (fun ch => ch = '/')).reverse⟩ : String)

/-- `os.path.basename` (posixpath): everything after the last `/`. -/
def basename (p : String) : String :=
  match rfindIdx p.data '/' with
  | none => p
  | some i => (⟨p.data.drop (i + 1)⟩ : String)

/-- `os.path.join a b` (posixpath, two arguments): `b` if it is absolute,
otherwise `a ++ b` when `a` is empty or ends in a separator, otherwise
`a ++ "/" ++ b`. -/
def joinPath (a b : String) : String :=
  if b.data.head? = some '/' then b
  else if a = "" ∨ a.data.getLast? = some '/' then a ++ b
  else a ++ "/" ++ b

/-! ## The filesystem model -/

/-- A filesystem entry: a regular file with its content as a list of bytes,
or a directory. -/
inductive Entry where
  | file (content : List Nat)
  | dir
deriving DecidableEq, Repr

/-- First-match association-list lookup. -/
def lookupEntry : List (String × Entry) → String → Option Entry
  | [], _ => none
  | (q, e) :: rest, p => if p = q then some e else lookupEntry rest p

/-- The filesystem: an association list from absolute paths to entries. -/
structure FS where
  entries : List (String × Entry)
deriving DecidableEq, Repr

def FS.lookup (fs : FS) (p : String) : Option Entry :=
  lookupEntry fs.entries p

/-- Create or overwrite the entry at `p`. -/
def FS.setEntry (fs : FS) (p : String) (e : Entry) : FS :=
  ⟨(p, e) :: fs.entries.filter (fun q => q.1 ≠ p)⟩

/-- `os.unlink` / `os.rmdir`: drop the entry at `p`. -/
def FS.removePath (fs : FS) (p : String) : FS :=
  ⟨fs.entries.filter (fun q => q.1 ≠ p)⟩

/-- `os.path.exists`. -/
def FS.pathExists (fs : FS) (p : String) : Bool :=
  (fs.lookup p).isSome

/-- `os.path.isfile`. -/
def FS.isfile (fs : FS) (p : String) : Bool :=
  match fs.lookup p with
  | some (Entry.file _) => true
  | _ => false

/-- `os.path.isdir`. -/
def FS.isdir (fs : FS) (p : String) : Bool :=
  match fs.lookup p with
  | some Entry.dir => true
  | _ => false

/-- `os.path.getsize`, defined on existing regular files. -/
def FS.getsize (fs : FS) (p : String) : Option Nat :=
  match fs.lookup p with
  | some (Entry.file c) => some c.length
  | _ => none

/-- `os.replace src dst`: move the entry at `src` over `dst`; `none` models
the `OSError` raised when `src` does not exist. -/
def FS.replacePath (fs : FS) (src dst : String) : Option FS :=
  match fs.lookup src with
  | some e => some ((fs.removePath src).setEntry dst e)
  | none => none

/-- The `if os.path.exists(tmp_path): os.unlink(tmp_path)` cleanup idiom used
on every error path of the rotation routines. -/
def cleanupTmp (fs : FS) (p : String) : FS :=
  if fs.pathExists p then fs.removePath p else fs

/-! ## External-process oracles -/

/-- The observable behaviour of one `subprocess.run` invocation of the
external transformer: its exit status, captured stderr, and the state in
which it leaves the `-outfile` / output-path target (`some c` = a file with
content `c`, `none` = no file at that path). -/
structure ToolResult where
  returncode : Int
  stdout : String
  stderr : String
  output : Option (List Nat)
deriving DecidableEq, Repr

/-- Per-operation environment oracles: the external tool's behaviour, whether
`tempfile.NamedTemporaryFile` succeeds and which fresh name it picks, whether
`os.makedirs` succeeds locally and in the home fallback, the home directory,
whether the backup `shutil.copy` succeeds, and the iteration budget used to
model the unbounded backup-name loop of `rotate_jpeg.py`. -/
structure RotCtx where
  tool : ToolResult
  tmpOk : Bool
  tmpPath : String
  canLocal : Bool
  canHome : Bool
  homeDir : String
  copyOk : Bool
  searchFuel : Nat
deriving DecidableEq, Repr

/-! ## rotate.py, embedded -/

/-- rotate.py:260-264 (and identically rotate_jpeg.py:66-70): the direction
table, a pure map from the direction token to the clockwise rotation
magnitude passed to the external tool. -/
def rotation_map (direction : String) : Option String :=
  if direction = "l" then some "270"
  else if direction = "r" then some "90"
  else if direction = "f" then some "180"
  else none

/-- rotate.py:68-76 (and identically rotate_jpeg.py:52-60): file type from
the lowercased extension. -/
def get_file_type (filepath : String) : Option String :=
  let ext := pyLower (splitext filepath).2
  if ext = ".jpg" ∨ ext = ".jpeg" then some "jpeg"
  else if ext = ".png" then some "png"
  else none

/-- rotate.py:20-45, `ensure_backup_dir`.  The process-wide
`_backup_dir_cache` memo (lines 17-18, 23-24, 32, 42) only short-circuits
recomputation of an identical result and is not modelled.  `os.makedirs`
success is the `canLocal` / `canHome` oracle.  Returns the printed notes and,
on success, the updated filesystem with the resolved backup directory; `none`
models the final `RuntimeError` of line 45. -/
def ensure_backup_dir (fs : FS) (ctx : RotCtx) (file_dir : String) :
    List String × Option (FS × String) :=
  let backup_dir := joinPath file_dir "rotate_bkup"
  if fs.pathExists backup_dir then ([], some (fs, backup_dir))
  else if ctx.canLocal then ([], some (fs.setEntry backup_dir Entry.dir, backup_dir))
  else
    let home_backup_dir := joinPath ctx.homeDir "rotate_bkup"
    if fs.pathExists home_backup_dir then
      (["Note: Cannot create backup directory at " ++ backup_dir,
        "      Using fallback location: " ++ home_backup_dir],
       some (fs, home_backup_dir))
    else if ctx.canHome then
      (["Note: Cannot create backup directory at " ++ backup_dir,
        "      Using fallback location: " ++ home_backup_dir],
       some (fs.setEntry home_backup_dir Entry.dir, home_backup_dir))
    else ([], none)

/-- rotate.py:59-64, the `while counter < max_attempts` loop of
`get_unique_backup_path`, with the remaining iteration count made explicit
(the loop body runs for `counter` = 1, …, 9999, i.e. 9999 times).  `ex` is
`os.path.exists` on the ambient filesystem. -/
def uniqueSearch (ex : String → Bool) (backup_dir base_name ext : String) :
    Nat → Nat → Option String
  | _, 0 => none
  | counter, rem + 1 =>
    let new_filename := base_name ++ "_" ++ Nat.repr counter ++ ext
    let backup_path := joinPath backup_dir new_filename
    if ex backup_path = false then some backup_path
    else uniqueSearch ex backup_dir base_name ext (counter + 1) rem

/-- rotate.py:47-66, `get_unique_backup_path`.  `none` models the
`RuntimeError` raised after `max_attempts = 10000` (the unsuffixed name plus
suffixes `_1` … `_9999`). -/
def get_unique_backup_path (ex : String → Bool) (backup_dir filename : String) :
    Option String :=
  let base_name := (splitext filename).1
  let ext := (splitext filename).2
  let backup_path := joinPath backup_dir filename
  if ex backup_path = false then some backup_path
  else uniqueSearch ex backup_dir base_name ext 1 9999

/-- The candidate backup name with numeric suffix `k`, as built by
rotate.py:60-61 (`f"{base_name}_{counter}{ext}"` joined to the backup
directory). -/
def candName (backup_dir base_name ext : String) (k : Nat) : String :=
  joinPath backup_dir (base_name ++ "_" ++ Nat.repr k ++ ext)

/-- rotate.py:112-183, `rotate_with_jpegtran`.  `os.path.abspath` is the
identity here: paths in the model are taken to be absolute already.  Returns
the final filesystem, the printed lines, and the boolean result of the
function. -/
def rotate_with_jpegtran (fs : FS) (ctx : RotCtx)
    (filepath direction rotation_angle : String) : FS × List String × Bool :=
  let abs_filepath := filepath
  let file_dir := dirname abs_filepath
  let filename := basename abs_filepath
  if ctx.tmpOk = false then
    (fs, ["Error: Cannot create temporary file in " ++ file_dir], false)
  else
    let tmp_path := ctx.tmpPath
    -- tempfile.NamedTemporaryFile(delete=False) leaves an empty file behind
    let fs1 := fs.setEntry tmp_path (Entry.file [])
    -- subprocess.run of jpegtran: the tool leaves the -outfile target in the
    -- state given by the oracle
    let fs2 := match ctx.tool.output with
      | some c => fs1.setEntry tmp_path (Entry.file c)
      | none => fs1.removePath tmp_path
    if ctx.tool.returncode ≠ 0 then
      (cleanupTmp fs2 tmp_path,
        ["Error running jpegtran: " ++ ctx.tool.stderr], false)
    else if fs2.pathExists tmp_path = false ∨ fs2.getsize tmp_path = some 0 then
      (cleanupTmp fs2 tmp_path,
        ["Error: Rotation produced empty or missing file"], false)
    else
      match ensure_backup_dir fs2 ctx file_dir with
      | (notes, none) =>
        -- the RuntimeError of ensure_backup_dir lands in the
        -- `except (OSError, RuntimeError)` handler of lines 172-177
        (cleanupTmp fs2 tmp_path,
          notes ++ ["Error: Cannot create backup directory"], false)
      | (notes, some (fs3, backup_dir)) =>
        match get_unique_backup_path fs3.pathExists backup_dir filename with
        | none =>
          -- likewise the RuntimeError of get_unique_backup_path
          (cleanupTmp fs3 tmp_path,
            notes ++ ["Error: Cannot create unique backup filename after 10000 attempts"],
            false)
        | some backup_path =>
          if ctx.copyOk = false then
            (cleanupTmp fs3 tmp_path,
              notes ++ ["Error: Cannot create backup: "], false)
          else
            match fs3.lookup abs_filepath with
            | some (Entry.file src) =>
              -- shutil.copy of the original to the backup path
              let fs4 := fs3.setEntry backup_path (Entry.file src)
              -- os.replace of the temporary file over the original
              match fs4.replacePath tmp_path abs_filepath with
              | some fs5 =>
                (fs5,
                  notes ++ ["✓ Rotated " ++ abs_filepath ++ " (" ++ direction ++ ")",
                    "  Original backed up to: " ++ backup_path], true)
              | none =>
                (cleanupTmp fs4 tmp_path, notes ++ ["Error: "], false)
            | _ =>
              -- shutil.copy raised: caught at lines 160-164
              (cleanupTmp fs3 tmp_path,
                notes ++ ["Error: Cannot create backup: "], false)

/-- rotate.py:185-255, `rotate_with_imagemagick`: identical control flow to
`rotate_with_jpegtran` with the ImageMagick command line and messages. -/
def rotate_with_imagemagick (fs : FS) (ctx : RotCtx)
    (filepath direction rotation_angle : String) : FS × List String × Bool :=
  let abs_filepath := filepath
  let file_dir := dirname abs_filepath
  let filename := basename abs_filepath
  if ctx.tmpOk = false then
    (fs, ["Error: Cannot create temporary file in " ++ file_dir], false)
  else
    let tmp_path := ctx.tmpPath
    let fs1 := fs.setEntry tmp_path (Entry.file [])
    let fs2 := match ctx.tool.output with
      | some c => fs1.setEntry tmp_path (Entry.file c)
      | none => fs1.removePath tmp_path
    if ctx.tool.returncode ≠ 0 then
      (cleanupTmp fs2 tmp_path,
        ["Error running ImageMagick: " ++ ctx.tool.stderr], false)
    else if fs2.pathExists tmp_path = false ∨ fs2.getsize tmp_path = some 0 then
      (cleanupTmp fs2 tmp_path,
        ["Error: Rotation produced empty or missing file"], false)
    else
      match ensure_backup_dir fs2 ctx file_dir with
      | (notes, none) =>
        (cleanupTmp fs2 tmp_path,
          notes ++ ["Error: Cannot create backup directory"], false)
      | (notes, some (fs3, backup_dir)) =>
        match get_unique_backup_path fs3.pathExists backup_dir filename with
        | none =>
          (cleanupTmp fs3 tmp_path,
            notes ++ ["Error: Cannot create unique backup filename after 10000 attempts"],
            false)
        | some backup_path =>
          if ctx.copyOk = false then
            (cleanupTmp fs3 tmp_path,
              notes ++ ["Error: Cannot create backup: "], false)
          else
            match fs3.lookup abs_filepath with
            | some (Entry.file src) =>
              let fs4 := fs3.setEntry backup_path (Entry.file src)
              match fs4.replacePath tmp_path abs_filepath with
              | some fs5 =>
                (fs5,
                  notes ++ ["✓ Rotated " ++ abs_filepath ++ " (" ++ direction ++ ")",
                    "  Original backed up to: " ++ backup_path], true)
              | none =>
                (cleanupTmp fs4 tmp_path, notes ++ ["Error: "], false)
            | _ =>
              (cleanupTmp fs3 tmp_path,
                notes ++ ["Error: Cannot create backup: "], false)

/-- rotate.py:257-288, `rotate_image`. -/
def rotate_image (fs : FS) (ctx : RotCtx) (filepath direction : String) :
    FS × List String × Bool :=
  match rotation_map direction with
  | none =>
    (fs, ["Error: Invalid direction \x27" ++ direction ++
      "\x27. Use \x27l\x27, \x27r\x27, or \x27f\x27"], false)
  | some rotation_angle =>
    if fs.isfile filepath = false then
      (fs, ["Error: File not found: " ++ filepath], false)
    else
      match get_file_type filepath with
      | none =>
        let extRaw := (splitext filepath).2
        let extMsg := if extRaw = "" then "(no extension)" else extRaw
        (fs, ["Error: Unsupported file type \x27" ++ extMsg ++ "\x27",
          "Supported formats: .jpg, .jpeg, .png"], false)
      | some file_type =>
        if file_type = "jpeg" then
          rotate_with_jpegtran fs ctx filepath direction rotation_angle
        else if file_type = "png" then
          rotate_with_imagemagick fs ctx filepath direction rotation_angle
        else
          (fs, [], false)

/-! ## rotate.py, interactive mode -/

/-- The observable behaviour of one `osascript` query of the Finder
selection: the raw stdout of a successful run, a timeout, or a non-zero
exit (`CalledProcessError`). -/
inductive FinderQuery where
  | ok (stdoutRaw : String)
  | timeout
  | calledProcessError
deriving DecidableEq, Repr

/-- rotate.py:78-110, `get_finder_selection`.  Returns the printed warnings
and the function's result (`none` for the `return None` paths, otherwise the
stripped stdout, which may be the empty string). -/
def get_finder_selection (fs : FS) (q : FinderQuery) : List String × Option String :=
  match q with
  | FinderQuery.ok stdoutRaw =>
    let path := pyStrip stdoutRaw
    if path ≠ "" ∧ fs.isdir path then ([], none)
    else ([], some path)
  | FinderQuery.timeout => (["Warning: Finder not responding"], none)
  | FinderQuery.calledProcessError => ([], none)

/-- rotate.py:333-339: parsing of an interactive line with at least two
whitespace-separated tokens — the last token, lowercased, is the direction;
the remaining tokens are re-joined with single spaces and the macOS drag
escapes `backslash-space` and `backslash-apostrophe` are unescaped. -/
def parse_path_and_direction (parts : List String) : String × String :=
  let direction := pyLower (parts.getLastD "")
  let filepath := pyJoin " " parts.dropLast
  let filepath := pyReplace (pyReplace filepath "\\ " " ") "\\\x27" "\x27"
  (filepath, direction)

/-- The per-line environment of the interactive loop: the oracles for the
rotation operation this line may trigger and for the Finder query it may
issue. -/
structure StepEnv where
  rctx : RotCtx
  finder : FinderQuery
deriving DecidableEq, Repr

/-- One iteration of the rotate.py:301-355 `while True` body, for a line
`raw` read from standard input.  Returns the filesystem, the printed lines,
whether the loop continues, and — when `rotate_image` was invoked — its
boolean result. -/
def interactive_step (fs : FS) (env : StepEnv) (raw : String) :
    FS × List String × Bool × Option Bool :=
  let user_input := pyStrip raw
  if pyLower user_input ∈ (["exit", "quit", "q"] : List String) then
    (fs, ["Goodbye!"], false, none)
  else if user_input = "" then
    (fs, [], true, none)
  else
    let parts := pySplit user_input
    if parts.length = 1 ∧ pyLower (parts.headD "") ∈ (["l", "r", "f"] : List String) then
      let direction := pyLower (parts.headD "")
      let sel := get_finder_selection fs env.finder
      match sel.2 with
      | none =>
        (fs, sel.1 ++ ["Error: No file selected in Finder, or selection is a folder",
          "Tip: Select a single file in Finder, then type the direction"], true, none)
      | some filepath =>
        if filepath = "" then
          (fs, sel.1 ++ ["Error: No file selected in Finder, or selection is a folder",
            "Tip: Select a single file in Finder, then type the direction"], true, none)
        else if fs.isfile filepath = false then
          (fs, sel.1 ++ ["Error: Selected item is not a file: " ++ filepath], true, none)
        else
          let r := rotate_image fs env.rctx filepath direction
          (r.1, sel.1 ++ ["Using Finder selection: " ++ basename filepath] ++ r.2.1 ++ [""],
            true, some r.2.2)
    else if 2 ≤ parts.length then
      let pd := parse_path_and_direction parts
      let r := rotate_image fs env.rctx pd.1 pd.2
      (r.1, r.2.1 ++ [""], true, some r.2.2)
    else
      (fs, ["Error: Please provide <direction> or <image_path> <direction>",
        "Example: r  (rotates Finder selection)",
        "Example: /path/to/image.jpg r"], true, none)

/-- An event on the interactive loop's standard input: a line (with the
oracles in force while it is processed) or a `KeyboardInterrupt`.  Exhausting
the event list models `EOFError`. -/
inductive Ev where
  | line (raw : String) (env : StepEnv)
  | interrupt
deriving DecidableEq, Repr

/-- Why the interactive loop stopped. -/
inductive StopReason where
  | exitToken
  | eof
  | interrupted
deriving DecidableEq, Repr

/-- The rotate.py:301-355 `while True` loop over a stream of input events. -/
def interactive_loop (fs : FS) : List Ev → FS × List String × StopReason
  | [] => (fs, ["Goodbye!"], StopReason.eof)
  | Ev.interrupt :: _ => (fs, ["Goodbye!"], StopReason.interrupted)
  | Ev.line raw env :: rest =>
    let s := interactive_step fs env raw
    if s.2.2.1 then
      let r := interactive_loop s.1 rest
      (r.1, s.2.1 ++ r.2.1, r.2.2)
    else
      (s.1, s.2.1, StopReason.exitToken)

/-- The greeting printed by rotate.py:292-299. -/
def bannerLines : List String :=
  ["Interactive Image Rotation Tool",
   "========================================",
   "Enter: <image_path> <direction>",
   "Or just: <direction> (uses Finder selection)",
   "Direction: l (left), r (right), f (flip)",
   "Type \x27exit\x27 or \x27quit\x27 to stop",
   "========================================",
   ""]

/-- rotate.py:290-355, `interactive_mode`. -/
def interactive_mode (fs : FS) (events : List Ev) : FS × List String × StopReason :=
  let r := interactive_loop fs events
  (r.1, bannerLines ++ r.2.1, r.2.2)

/-- rotate.py:357-375, `main`.  Returns the filesystem, the printed lines and
the process exit status.  Note that in the single-rotation branch (lines
362-366) the result of `rotate_image` is discarded and the function falls off
the end, so the process exits 0. -/
def rotate_main (fs : FS) (ctx : RotCtx) (events : List Ev) (argv : List String) :
    FS × List String × Nat :=
  if argv.length = 2 ∧ argv.getD 1 "" = "-p" then
    let r := interactive_mode fs events
    (r.1, r.2.1, 0)
  else if argv.length = 3 then
    let image_file := argv.getD 1 ""
    let direction := pyLower (argv.getD 2 "")
    let r := rotate_image fs ctx image_file direction
    (r.1, r.2.1, 0)
  else
    (fs, ["Usage:",
      "  rotate.py <image_file> <direction>  - Rotate once",
      "  rotate.py -p                         - Interactive mode",
      "",
      "Direction: l (90° CCW), r (90° CW), f (180°)",
      "Supported formats: JPEG (.jpg, .jpeg), PNG (.png)"], 1)

/-! ## rotate_jpeg.py, embedded -/

/-- How a rotate_jpeg.py code path ends: the function falls through normally
(process exit 0), the process exits with the given status, or — since the
backup-name loop of rotate_jpeg.py:45-50 is unbounded — the search is still
running after the modelled iteration budget. -/
inductive RJOutcome where
  | finished
  | exited (code : Nat)
  | diverged
deriving DecidableEq, Repr

/-- The result of the unbounded backup-name search of rotate_jpeg.py under an
explicit iteration budget. -/
inductive RJSearch where
  | found (p : String)
  | fuelOut
deriving DecidableEq, Repr

namespace RJ

/-- rotate_jpeg.py:15-32, `ensure_backup_dir`.  The `except` branch has no
inner `try`: a `makedirs` failure in the home fallback propagates, which the
caller's `except Exception` handler catches; that is the `none` case. -/
def ensure_backup_dir (fs : FS) (ctx : RotCtx) (filepath : String) :
    List String × Option (FS × String) :=
  let file_dir := dirname filepath
  let backup_dir := joinPath file_dir "rotate_bkup"
  if fs.pathExists backup_dir then ([], some (fs, backup_dir))
  else if ctx.canLocal then ([], some (fs.setEntry backup_dir Entry.dir, backup_dir))
  else
    let home_backup_dir := joinPath ctx.homeDir "rotate_bkup"
    if fs.pathExists home_backup_dir then
      (["Note: Cannot create backup directory at " ++ backup_dir,
        "      Using fallback location: " ++ home_backup_dir],
       some (fs, home_backup_dir))
    else if ctx.canHome then
      (["Note: Cannot create backup directory at " ++ backup_dir,
        "      Using fallback location: " ++ home_backup_dir],
       some (fs.setEntry home_backup_dir Entry.dir, home_backup_dir))
    else ([], none)

/-- rotate_jpeg.py:44-50, the `while True` loop of `get_unique_backup_path`:
unlike rotate.py there is no `max_attempts` bound, so the recursion is
indexed by an explicit iteration budget, with `fuelOut` meaning the loop is
still running after that many iterations. -/
def uniqueSearch (ex : String → Bool) (backup_dir base_name ext : String) :
    Nat → Nat → RJSearch
  | _, 0 => RJSearch.fuelOut
  | counter, rem + 1 =>
    let new_filename := base_name ++ "_" ++ Nat.repr counter ++ ext
    let backup_path := joinPath backup_dir new_filename
    if ex backup_path = false then RJSearch.found backup_path
    else uniqueSearch ex backup_dir base_name ext (counter + 1) rem

/-- rotate_jpeg.py:34-50, `get_unique_backup_path`, under an explicit
iteration budget for the unbounded loop. -/
def get_unique_backup_path (ex : String → Bool) (backup_dir filename : String)
    (fuel : Nat) : RJSearch :=
  let base_name := (splitext filename).1
  let ext := (splitext filename).2
  let backup_path := joinPath backup_dir filename
  if ex backup_path = false then RJSearch.found backup_path
  else uniqueSearch ex backup_dir base_name ext 1 fuel

/-- rotate_jpeg.py:92-131, `rotate_with_jpegtran`.  Two behaviours differ
from the rotate.py version and are modelled exactly as written: (1) on a
non-zero tool exit, line 114 calls `sys.exit(1)`, and the resulting
`SystemExit` is not an `Exception`, so the handler of line 126 does not run
and the temporary file is NOT removed; (2) there is no check that the tool's
output file exists and is non-empty. -/
def rotate_with_jpegtran (fs : FS) (ctx : RotCtx)
    (filepath direction rotation_angle : String) : FS × List String × RJOutcome :=
  if ctx.tmpOk = false then
    -- NamedTemporaryFile failure is caught nowhere in rotate_jpeg.py: the
    -- interpreter prints a traceback and exits with status 1
    (fs, ["Traceback (most recent call last):"], RJOutcome.exited 1)
  else
    let tmp_path := ctx.tmpPath
    let fs1 := fs.setEntry tmp_path (Entry.file [])
    let fs2 := match ctx.tool.output with
      | some c => fs1.setEntry tmp_path (Entry.file c)
      | none => fs1.removePath tmp_path
    if ctx.tool.returncode ≠ 0 then
      (fs2, ["Error running jpegtran: " ++ ctx.tool.stderr], RJOutcome.exited 1)
    else
      match RJ.ensure_backup_dir fs2 ctx filepath with
      | (notes, none) =>
        (cleanupTmp fs2 tmp_path, notes ++ ["Error: "], RJOutcome.exited 1)
      | (notes, some (fs3, backup_dir)) =>
        match RJ.get_unique_backup_path fs3.pathExists backup_dir (basename filepath)
            ctx.searchFuel with
        | RJSearch.fuelOut => (fs3, notes, RJOutcome.diverged)
        | RJSearch.found backup_path =>
          if ctx.copyOk = false then
            (cleanupTmp fs3 tmp_path, notes ++ ["Error: "], RJOutcome.exited 1)
          else
            match fs3.lookup filepath with
            | some (Entry.file src) =>
              -- shutil.copy2 of the original to the backup path
              let fs4 := fs3.setEntry backup_path (Entry.file src)
              -- os.replace of the temporary file over the original: note
              -- there was no check of the output, so an empty output is
              -- moved over the source just the same
              match fs4.replacePath tmp_path filepath with
              | some fs5 =>
                (fs5, notes ++ ["✓ Rotated " ++ filepath ++ " (" ++ direction ++ ")",
                  "  Original backed up to: " ++ backup_path], RJOutcome.finished)
              | none =>
                (cleanupTmp fs4 tmp_path, notes ++ ["Error: "], RJOutcome.exited 1)
            | _ =>
              (cleanupTmp fs3 tmp_path, notes ++ ["Error: "], RJOutcome.exited 1)

/-- rotate_jpeg.py:133-171, `rotate_with_imagemagick`: identical control flow
to `RJ.rotate_with_jpegtran` with the ImageMagick command line. -/
def rotate_with_imagemagick (fs : FS) (ctx : RotCtx)
    (filepath direction rotation_angle : String) : FS × List String × RJOutcome :=
  if ctx.tmpOk = false then
    (fs, ["Traceback (most recent call last):"], RJOutcome.exited 1)
  else
    let tmp_path := ctx.tmpPath
    let fs1 := fs.setEntry tmp_path (Entry.file [])
    let fs2 := match ctx.tool.output with
      | some c => fs1.setEntry tmp_path (Entry.file c)
      | none => fs1.removePath tmp_path
    if ctx.tool.returncode ≠ 0 then
      (fs2, ["Error running ImageMagick: " ++ ctx.tool.stderr], RJOutcome.exited 1)
    else
      match RJ.ensure_backup_dir fs2 ctx filepath with
      | (notes, none) =>
        (cleanupTmp fs2 tmp_path, notes ++ ["Error: "], RJOutcome.exited 1)
      | (notes, some (fs3, backup_dir)) =>
        match RJ.get_unique_backup_path fs3.pathExists backup_dir (basename filepath)
            ctx.searchFuel with
        | RJSearch.fuelOut => (fs3, notes, RJOutcome.diverged)
        | RJSearch.found backup_path =>
          if ctx.copyOk = false then
            (cleanupTmp fs3 tmp_path, notes ++ ["Error: "], RJOutcome.exited 1)
          else
            match fs3.lookup filepath with
            | some (Entry.file src) =>
              let fs4 := fs3.setEntry backup_path (Entry.file src)
              match fs4.replacePath tmp_path filepath with
              | some fs5 =>
                (fs5, notes ++ ["✓ Rotated " ++ filepath ++ " (" ++ direction ++ ")",
                  "  Original backed up to: " ++ backup_path], RJOutcome.finished)
              | none =>
                (cleanupTmp fs4 tmp_path, notes ++ ["Error: "], RJOutcome.exited 1)
            | _ =>
              (cleanupTmp fs3 tmp_path, notes ++ ["Error: "], RJOutcome.exited 1)

/-- rotate_jpeg.py:62-90, `rotate_jpeg`: validation then dispatch.  All
validation failures call `sys.exit(1)` directly. -/
def rotate_jpeg (fs : FS) (ctx : RotCtx) (filepath direction : String) :
    FS × List String × RJOutcome :=
  match rotation_map direction with
  | none =>
    (fs, ["Error: Invalid direction \x27" ++ direction ++
      "\x27. Use \x27l\x27, \x27r\x27, or \x27f\x27"], RJOutcome.exited 1)
  | some rotation_angle =>
    if fs.isfile filepath = false then
      (fs, ["Error: File not found: " ++ filepath], RJOutcome.exited 1)
    else
      match get_file_type filepath with
      | none =>
        (fs, ["Error: Currently only jpeg and png files are supported"],
          RJOutcome.exited 1)
      | some file_type =>
        if file_type = "jpeg" then
          RJ.rotate_with_jpegtran fs ctx filepath direction rotation_angle
        else if file_type = "png" then
          RJ.rotate_with_imagemagick fs ctx filepath direction rotation_angle
        else
          (fs, [], RJOutcome.finished)

/-- rotate_jpeg.py:173-183, the `__main__` block. -/
def main (fs : FS) (ctx : RotCtx) (argv : List String) :
    FS × List String × RJOutcome :=
  if argv.length ≠ 3 then
    (fs, ["Usage: python rotate_jpeg.py <image_file> <direction>",
      "Direction: l (90° CCW), r (90° CW), f (180°)",
      "Supported formats: JPEG (.jpg, .jpeg), PNG (.png)"], RJOutcome.exited 1)
  else
    RJ.rotate_jpeg fs ctx (argv.getD 1 "") (pyLower (argv.getD 2 ""))

end RJ

/-! ## Spec-side definition for the refinement claim about interactive
line parsing -/

/-- Modelled from the claim's words, for comparison with the source-side
`parse_path_and_direction`: on a line of two or more whitespace-separated
tokens, the last token lowercased is the direction, the preceding tokens
joined with single spaces — with backslash-space and backslash-apostrophe
unescaped — are the path. -/
def claimParseSpec (line : String) : Option (String × String) :=
  let toks := pySplit line
  if 2 ≤ toks.length then
    let direction := pyLower (toks.getLastD "")
    let path := pyJoin " " toks.dropLast
    let path := pyReplace (pyReplace path "\\ " " ") "\\\x27" "\x27"
    some (path, direction)
  else none

/-- An interactive line is an exit command in the sense of rotate.py:307. -/
def isExitCommand (raw : String) : Prop :=
  pyLower (pyStrip raw) ∈ (["exit", "quit", "q"] : List String)

instance (raw : String) : Decidable (isExitCommand raw) := by
  unfold isExitCommand; infer_instance

/-- A printed line that is an error diagnostic: it starts with `Error`. -/
def isErrorLine (m : String) : Prop :=
  ∃ t, m = "Error" ++ t

/-! ## Concrete inputs used by witnesses and counterexamples -/

/-- A filesystem holding one JPEG file. -/
def fsOne : FS := ⟨[("/pics/a.jpg", Entry.file [10, 20, 30])]⟩

/-- A second filesystem holding one JPEG file, for a separate scenario. -/
def fsTwo : FS := ⟨[("/d/b.jpg", Entry.file [7])]⟩

/-- The empty filesystem. -/
def fsEmpty : FS := ⟨[]⟩

/-- A filesystem holding one GIF file (an unsupported type). -/
def fsGif : FS := ⟨[("/a/b.gif", Entry.file [1])]⟩

/-- An environment in which everything succeeds and the tool writes the
two-byte output `[7, 8]`. -/
def ctxGood : RotCtx :=
  { tool := { returncode := 0, stdout := "", stderr := "", output := some [7, 8] },
    tmpOk := true, tmpPath := "/pics/tmpX.jpg", canLocal := true, canHome := true,
    homeDir := "/home/u", copyOk := true, searchFuel := 100 }

/-- An environment in which the tool exits 0 but writes a zero-byte output
file. -/
def ctxEmptyOut : RotCtx :=
  { ctxGood with tool := { returncode := 0, stdout := "", stderr := "", output := some [] } }

/-- The same zero-byte-output environment with the temporary file placed in
`/d`. -/
def ctxEmptyOutD : RotCtx :=
  { ctxEmptyOut with tmpPath := "/d/tmpY.jpg" }

/-- An environment in which the tool exits 1, leaving the (empty) temporary
file behind in `/d`. -/
def ctxFailTool : RotCtx :=
  { ctxGood with
    tool := { returncode := 1, stdout := "", stderr := "boom", output := some [] },
    tmpPath := "/d/tmpZ.jpg" }

/-- An environment in which the tool exits 1, with the temporary file in
`/pics`. -/
def ctxRc1 : RotCtx :=
  { ctxGood with
    tool := { returncode := 1, stdout := "", stderr := "boom", output := some [] } }

/-- An interactive-line environment whose Finder query returns an empty
selection. -/
def envNoSel : StepEnv :=
  { rctx := ctxGood, finder := FinderQuery.ok "" }

/-! ## Lemmas about the filesystem model -/

theorem lookupEntry_filter (l : List (String × Entry)) (p q : String) :
    lookupEntry (l.filter (fun r => r.1 ≠ p)) q =
      if q = p then none else lookupEntry l q := by
  induction l with
  | nil => simp [lookupEntry]
  | cons hd tl ih =>
    obtain ⟨a, e⟩ := hd
    by_cases hap : a = p
    · rw [show ((a, e) :: tl).filter (fun r => r.1 ≠ p) = tl.filter (fun r => r.1 ≠ p) by
        simp [List.filter_cons, hap]]
      rw [ih]
      by_cases hqp : q = p
      · simp [hqp]
      · have hqa : ¬ q = a := fun h => hqp (h.trans hap)
        simp [hqp, lookupEntry, hqa]
    · rw [show ((a, e) :: tl).filter (fun r => r.1 ≠ p) = (a, e) :: tl.filter (fun r => r.1 ≠ p) by
        simp [List.filter_cons, hap]]
      show (if q = a then some e else lookupEntry (tl.filter fun r => r.1 ≠ p) q) = _
      rw [ih]
      by_cases hqa : q = a
      · subst hqa
        simp [hap, lookupEntry]
      · simp [hqa, lookupEntry]

@[simp] theorem FS.lookup_setEntry (fs : FS) (p q : String) (e : Entry) :
    (fs.setEntry p e).lookup q = if q = p then some e else fs.lookup q := by
  unfold FS.setEntry FS.lookup
  show (if q = p then some e else lookupEntry (fs.entries.filter (fun r => r.1 ≠ p)) q) = _
  rw [lookupEntry_filter]
  by_cases h : q = p <;> simp [h]

@[simp] theorem FS.lookup_removePath (fs : FS) (p q : String) :
    (fs.removePath p).lookup q = if q = p then none else fs.lookup q := by
  unfold FS.removePath FS.lookup
  exact lookupEntry_filter fs.entries p q

theorem FS.lookup_eq_none_of_not_exists {fs : FS} {p : String}
    (h : fs.pathExists p = false) : fs.lookup p = none := by
  unfold FS.pathExists at h
  cases hl : fs.lookup p with
  | none => rfl
  | some e => rw [hl] at h; simp at h

theorem cleanupTmp_lookup (fs : FS) (p q : String) :
    (cleanupTmp fs p).lookup q = if q = p then none else fs.lookup q := by
  unfold cleanupTmp
  by_cases h : fs.pathExists p
  · simp [h]
  · simp only [Bool.not_eq_true] at h
    have hnone := FS.lookup_eq_none_of_not_exists h
    simp only [h, Bool.false_eq_true, if_false]
    by_cases hq : q = p
    · subst hq; simp [hnone]
    · simp [hq]

theorem cleanupTmp_not_exists (fs : FS) (p : String) :
    (cleanupTmp fs p).pathExists p = false := by
  unfold FS.pathExists
  rw [cleanupTmp_lookup]
  simp

/-! ## Lemmas about strings -/

theorem strData_append : ∀ (a b : String), (a ++ b).data = a.data ++ b.data
  | ⟨_⟩, ⟨_⟩ => rfl

theorem strAppend_assoc : ∀ (a b c : String), a ++ b ++ c = a ++ (b ++ c)
  | ⟨x⟩, ⟨y⟩, ⟨z⟩ => congrArg String.mk (List.append_assoc x y z)

theorem isErrorLine_concat (pre s : String) (h : isErrorLine pre) :
    isErrorLine (pre ++ s) := by
  obtain ⟨t, ht⟩ := h
  exact ⟨t ++ s, by rw [ht, strAppend_assoc]⟩

/-! ## Lemmas about backup-directory resolution -/

theorem ensure_backup_dir_fs {fs : FS} {ctx : RotCtx} {d : String} {notes : List String}
    {fs' : FS} {bdir : String}
    (h : ensure_backup_dir fs ctx d = (notes, some (fs', bdir))) :
    fs' = fs ∨ ∃ nd, fs.lookup nd = none ∧ fs' = fs.setEntry nd Entry.dir := by
  unfold ensure_backup_dir at h
  by_cases e1 : fs.pathExists (joinPath d "rotate_bkup") = true
  · rw [if_pos e1] at h
    simp only [Prod.mk.injEq, Option.some.injEq] at h
    exact Or.inl h.2.1.symm
  · rw [if_neg e1] at h
    by_cases e2 : ctx.canLocal = true
    · rw [if_pos e2] at h
      simp only [Prod.mk.injEq, Option.some.injEq] at h
      refine Or.inr ⟨joinPath d "rotate_bkup", ?_, h.2.1.symm⟩
      exact FS.lookup_eq_none_of_not_exists
        (by revert e1; cases fs.pathExists (joinPath d "rotate_bkup") <;> simp)
    · rw [if_neg e2] at h
      by_cases e3 : fs.pathExists (joinPath ctx.homeDir "rotate_bkup") = true
      · rw [if_pos e3] at h
        simp only [Prod.mk.injEq, Option.some.injEq] at h
        exact Or.inl h.2.1.symm
      · rw [if_neg e3] at h
        by_cases e4 : ctx.canHome = true
        · rw [if_pos e4] at h
          simp only [Prod.mk.injEq, Option.some.injEq] at h
          refine Or.inr ⟨joinPath ctx.homeDir "rotate_bkup", ?_, h.2.1.symm⟩
          exact FS.lookup_eq_none_of_not_exists
            (by revert e3; cases fs.pathExists (joinPath ctx.homeDir "rotate_bkup") <;> simp)
        · rw [if_neg e4] at h
          simp at h

theorem ensure_backup_dir_preserves {fs : FS} {ctx : RotCtx} {d : String}
    {notes : List String} {fs' : FS} {bdir : String}
    (h : ensure_backup_dir fs ctx d = (notes, some (fs', bdir)))
    (q : String) (hq : fs.lookup q ≠ none) : fs'.lookup q = fs.lookup q := by
  rcases ensure_backup_dir_fs h with rfl | ⟨nd, hnd, rfl⟩
  · rfl
  · rw [FS.lookup_setEntry]
    by_cases hqnd : q = nd
    · subst hqnd; exact absurd hnd hq
    · simp [hqnd]

theorem rj_ensure_backup_dir_fs {fs : FS} {ctx : RotCtx} {d : String} {notes : List String}
    {fs' : FS} {bdir : String}
    (h : RJ.ensure_backup_dir fs ctx d = (notes, some (fs', bdir))) :
    fs' = fs ∨ ∃ nd, fs.lookup nd = none ∧ fs' = fs.setEntry nd Entry.dir := by
  unfold RJ.ensure_backup_dir at h
  by_cases e1 : fs.pathExists (joinPath (dirname d) "rotate_bkup") = true
  · rw [if_pos e1] at h
    simp only [Prod.mk.injEq, Option.some.injEq] at h
    exact Or.inl h.2.1.symm
  · rw [if_neg e1] at h
    by_cases e2 : ctx.canLocal = true
    · rw [if_pos e2] at h
      simp only [Prod.mk.injEq, Option.some.injEq] at h
      refine Or.inr ⟨joinPath (dirname d) "rotate_bkup", ?_, h.2.1.symm⟩
      exact FS.lookup_eq_none_of_not_exists
        (by revert e1; cases fs.pathExists (joinPath (dirname d) "rotate_bkup") <;> simp)
    · rw [if_neg e2] at h
      by_cases e3 : fs.pathExists (joinPath ctx.homeDir "rotate_bkup") = true
      · rw [if_pos e3] at h
        simp only [Prod.mk.injEq, Option.some.injEq] at h
        exact Or.inl h.2.1.symm
      · rw [if_neg e3] at h
        by_cases e4 : ctx.canHome = true
        · rw [if_pos e4] at h
          simp only [Prod.mk.injEq, Option.some.injEq] at h
          refine Or.inr ⟨joinPath ctx.homeDir "rotate_bkup", ?_, h.2.1.symm⟩
          exact FS.lookup_eq_none_of_not_exists
            (by revert e3; cases fs.pathExists (joinPath ctx.homeDir "rotate_bkup") <;> simp)
        · rw [if_neg e4] at h
          simp at h

/-! ## Lemmas about the backup-name search -/

theorem uniqueSearch_succ (ex : String → Bool) (bd bn ext : String) (counter n : Nat) :
    uniqueSearch ex bd bn ext counter (n + 1) =
      if ex (candName bd bn ext counter) = false then some (candName bd bn ext counter)
      else uniqueSearch ex bd bn ext (counter + 1) n := rfl

theorem rjUniqueSearch_succ (ex : String → Bool) (bd bn ext : String) (counter n : Nat) :
    RJ.uniqueSearch ex bd bn ext counter (n + 1) =
      if ex (candName bd bn ext counter) = false then RJSearch.found (candName bd bn ext counter)
      else RJ.uniqueSearch ex bd bn ext (counter + 1) n := rfl

theorem uniqueSearch_ex_false (ex : String → Bool) (bd bn ext : String) :
    ∀ rem counter p, uniqueSearch ex bd bn ext counter rem = some p → ex p = false := by
  intro rem
  induction rem with
  | zero => intro counter p h; simp [uniqueSearch] at h
  | succ n ih =>
    intro counter p h
    rw [uniqueSearch_succ] at h
    split_ifs at h with hex
    · cases h; exact hex
    · exact ih _ _ h

theorem get_unique_ex_false {ex : String → Bool} {bd fn p : String}
    (h : get_unique_backup_path ex bd fn = some p) : ex p = false := by
  unfold get_unique_backup_path at h
  dsimp only at h
  split_ifs at h with hex
  · cases h; exact hex
  · exact uniqueSearch_ex_false ex bd _ _ 9999 1 p h

theorem uniqueSearch_found (ex : String → Bool) (bd bn ext : String) :
    ∀ rem counter k, counter ≤ k → k < counter + rem →
      (∀ j, counter ≤ j → j < k → ex (candName bd bn ext j) = true) →
      ex (candName bd bn ext k) = false →
      uniqueSearch ex bd bn ext counter rem = some (candName bd bn ext k) := by
  intro rem
  induction rem with
  | zero => intro counter k h1 h2 _ _; omega
  | succ n ih =>
    intro counter k h1 h2 hall hk
    rw [uniqueSearch_succ]
    by_cases hck : counter = k
    · subst hck; rw [if_pos hk]
    · have hc : ex (candName bd bn ext counter) = true :=
        hall counter (le_refl _) (by omega)
      rw [if_neg (by simp [hc])]
      exact ih (counter + 1) k (by omega) (by omega)
        (fun j hj1 hj2 => hall j (by omega) hj2) hk

theorem uniqueSearch_eq_none_iff (ex : String → Bool) (bd bn ext : String) :
    ∀ rem counter, uniqueSearch ex bd bn ext counter rem = none ↔
      ∀ k, counter ≤ k → k < counter + rem → ex (candName bd bn ext k) = true := by
  intro rem
  induction rem with
  | zero =>
    intro counter
    constructor
    · intro _ k h1 h2; omega
    · intro _; rfl
  | succ n ih =>
    intro counter
    rw [uniqueSearch_succ]
    by_cases hc : ex (candName bd bn ext counter) = false
    · rw [if_pos hc]
      constructor
      · intro h; cases h
      · intro hall
        have := hall counter (le_refl _) (by omega)
        rw [this] at hc; cases hc
    · rw [if_neg hc, ih (counter + 1)]
      have hc' : ex (candName bd bn ext counter) = true := by
        revert hc; cases ex (candName bd bn ext counter) <;> simp
      constructor
      · intro hall k h1 h2
        by_cases hkc : k = counter
        · subst hkc; exact hc'
        · exact hall k (by omega) (by omega)
      · intro hall k h1 h2; exact hall k (by omega) (by omega)

theorem get_unique_eq_none_iff (ex : String → Bool) (bd fn : String) :
    get_unique_backup_path ex bd fn = none ↔
      ex (joinPath bd fn) = true ∧
      ∀ k, 1 ≤ k → k < 10000 →
        ex (candName bd (splitext fn).1 (splitext fn).2 k) = true := by
  unfold get_unique_backup_path
  dsimp only
  by_cases hex : ex (joinPath bd fn) = false
  · rw [if_pos hex]
    constructor
    · intro h; cases h
    · intro h; rw [h.1] at hex; cases hex
  · rw [if_neg hex, uniqueSearch_eq_none_iff]
    have hex' : ex (joinPath bd fn) = true := by
      revert hex; cases ex (joinPath bd fn) <;> simp
    constructor
    · intro hall; exact ⟨hex', fun k h1 h2 => hall k h1 (by omega)⟩
    · intro h k h1 h2; exact h.2 k h1 (by omega)

theorem get_unique_found {ex : String → Bool} {bd fn : String} {k : Nat}
    (hk1 : 1 ≤ k) (hk2 : k < 10000)
    (hname : ex (joinPath bd fn) = true)
    (hall : ∀ j, 1 ≤ j → j < k →
      ex (candName bd (splitext fn).1 (splitext fn).2 j) = true)
    (hk : ex (candName bd (splitext fn).1 (splitext fn).2 k) = false) :
    get_unique_backup_path ex bd fn =
      some (candName bd (splitext fn).1 (splitext fn).2 k) := by
  unfold get_unique_backup_path
  dsimp only
  rw [if_neg (by simp [hname])]
  exact uniqueSearch_found ex bd _ _ 9999 1 k hk1 (by omega) hall hk

theorem rjUniqueSearch_allTaken (bd bn ext : String) :
    ∀ fuel counter,
      RJ.uniqueSearch (fun _ => true) bd bn ext counter fuel = RJSearch.fuelOut := by
  intro fuel
  induction fuel with
  | zero => intro _; rfl
  | succ n ih =>
    intro c
    rw [rjUniqueSearch_succ, if_neg (by simp)]
    exact ih (c + 1)

/-! ## Lemmas about `splitext` and path names -/

theorem splitextList_append (l : List Char) :
    (splitextList l).1 ++ (splitextList l).2 = l := by
  unfold splitextList
  dsimp only
  split_ifs <;> simp

theorem splitext_append (f : String) : (splitext f).1 ++ (splitext f).2 = f := by
  cases f with
  | mk l =>
    show (⟨(splitextList l).1⟩ : String) ++ ⟨(splitextList l).2⟩ = ⟨l⟩
    have h : (⟨(splitextList l).1⟩ : String) ++ ⟨(splitextList l).2⟩
        = ⟨(splitextList l).1 ++ (splitextList l).2⟩ := rfl
    rw [h, splitextList_append]

theorem joinPath_ne_of_length_ne (a x y : String)
    (hx : x.data.head? ≠ some '/') (hy : y.data.head? ≠ some '/')
    (hlen : x.data.length ≠ y.data.length) : joinPath a x ≠ joinPath a y := by
  unfold joinPath
  rw [if_neg hx, if_neg hy]
  by_cases hae : a = "" ∨ a.data.getLast? = some '/'
  · rw [if_pos hae, if_pos hae]
    intro h
    have hd := congrArg String.data h
    rw [strData_append, strData_append] at hd
    have hl := congrArg List.length hd
    simp only [List.length_append] at hl
    omega
  · rw [if_neg hae, if_neg hae]
    intro h
    have hd := congrArg String.data h
    rw [strData_append, strData_append, strData_append, strData_append] at hd
    have hl := congrArg List.length hd
    simp only [List.length_append] at hl
    omega

/-! ## Failure paths print diagnostics -/

theorem mem_append_single {α : Type} (l : List α) (x : α) : x ∈ l ++ [x] :=
  List.mem_append_right l (List.mem_singleton.mpr rfl)

theorem get_file_type_cases {p ft : String} (h : get_file_type p = some ft) :
    ft = "jpeg" ∨ ft = "png" := by
  unfold get_file_type at h
  dsimp only at h
  split_ifs at h
  · exact Or.inl (Option.some.inj h).symm
  · exact Or.inr (Option.some.inj h).symm

theorem rotate_with_jpegtran_fail_msg (fs : FS) (ctx : RotCtx) (p d a : String) :
    (rotate_with_jpegtran fs ctx p d a).2.2 = false →
    ∃ m ∈ (rotate_with_jpegtran fs ctx p d a).2.1, isErrorLine m := by
  unfold rotate_with_jpegtran
  dsimp only
  repeat' split
  all_goals intro h
  all_goals first
    | exact absurd (show true = false from h) (by decide)
    | exact ⟨_, List.mem_singleton.mpr rfl,
        isErrorLine_concat _ _ ⟨": Cannot create temporary file in ", by decide⟩⟩
    | exact ⟨_, List.mem_singleton.mpr rfl,
        isErrorLine_concat _ _ ⟨" running jpegtran: ", by decide⟩⟩
    | exact ⟨_, List.mem_singleton.mpr rfl,
        ⟨": Rotation produced empty or missing file", by decide⟩⟩
    | exact ⟨_, mem_append_single _ _, ⟨": Cannot create backup directory", by decide⟩⟩
    | exact ⟨_, mem_append_single _ _,
        ⟨": Cannot create unique backup filename after 10000 attempts", by decide⟩⟩
    | exact ⟨_, mem_append_single _ _, ⟨": Cannot create backup: ", by decide⟩⟩
    | exact ⟨_, mem_append_single _ _, ⟨": ", by decide⟩⟩

theorem rotate_with_imagemagick_fail_msg (fs : FS) (ctx : RotCtx) (p d a : String) :
    (rotate_with_imagemagick fs ctx p d a).2.2 = false →
    ∃ m ∈ (rotate_with_imagemagick fs ctx p d a).2.1, isErrorLine m := by
  unfold rotate_with_imagemagick
  dsimp only
  repeat' split
  all_goals intro h
  all_goals first
    | exact absurd (show true = false from h) (by decide)
    | exact ⟨_, List.mem_singleton.mpr rfl,
        isErrorLine_concat _ _ ⟨": Cannot create temporary file in ", by decide⟩⟩
    | exact ⟨_, List.mem_singleton.mpr rfl,
        isErrorLine_concat _ _ ⟨" running ImageMagick: ", by decide⟩⟩
    | exact ⟨_, List.mem_singleton.mpr rfl,
        ⟨": Rotation produced empty or missing file", by decide⟩⟩
    | exact ⟨_, mem_append_single _ _, ⟨": Cannot create backup directory", by decide⟩⟩
    | exact ⟨_, mem_append_single _ _,
        ⟨": Cannot create unique backup filename after 10000 attempts", by decide⟩⟩
    | exact ⟨_, mem_append_single _ _, ⟨": Cannot create backup: ", by decide⟩⟩
    | exact ⟨_, mem_append_single _ _, ⟨": ", by decide⟩⟩

theorem rotate_image_fail_msg (fs : FS) (ctx : RotCtx) (p d : String) :
    (rotate_image fs ctx p d).2.2 = false →
    ∃ m ∈ (rotate_image fs ctx p d).2.1, isErrorLine m := by
  unfold rotate_image
  cases hmap : rotation_map d with
  | none =>
    dsimp only
    intro _
    exact ⟨_, List.mem_singleton.mpr rfl,
      isErrorLine_concat _ _ (isErrorLine_concat _ _ ⟨": Invalid direction \x27", by decide⟩)⟩
  | some angle =>
    dsimp only
    by_cases hf : fs.isfile p = false
    · rw [if_pos hf]
      intro _
      exact ⟨_, List.mem_singleton.mpr rfl,
        isErrorLine_concat _ _ ⟨": File not found: ", by decide⟩⟩
    · rw [if_neg hf]
      cases hft : get_file_type p with
      | none =>
        dsimp only
        intro _
        exact ⟨_, List.mem_cons_self _ _,
          isErrorLine_concat _ _
            (isErrorLine_concat _ _ ⟨": Unsupported file type \x27", by decide⟩)⟩
      | some ft =>
        dsimp only
        rcases get_file_type_cases hft with rfl | rfl
        · rw [if_pos rfl]
          exact rotate_with_jpegtran_fail_msg fs ctx p d angle
        · rw [if_neg (by decide), if_pos rfl]
          exact rotate_with_imagemagick_fail_msg fs ctx p d angle

theorem rj_jpegtran_exit (fs : FS) (ctx : RotCtx) (p d a : String) :
    ∀ c, (RJ.rotate_with_jpegtran fs ctx p d a).2.2 = RJOutcome.exited c →
      c = 1 ∧ (RJ.rotate_with_jpegtran fs ctx p d a).2.1 ≠ [] := by
  unfold RJ.rotate_with_jpegtran
  dsimp only
  repeat' split
  all_goals intro c h
  all_goals first
    | exact RJOutcome.noConfusion (show RJOutcome.finished = RJOutcome.exited c from h)
    | exact RJOutcome.noConfusion (show RJOutcome.diverged = RJOutcome.exited c from h)
    | (injection h with h'
       subst h'
       exact ⟨rfl, by simp⟩)

theorem rj_imagemagick_exit (fs : FS) (ctx : RotCtx) (p d a : String) :
    ∀ c, (RJ.rotate_with_imagemagick fs ctx p d a).2.2 = RJOutcome.exited c →
      c = 1 ∧ (RJ.rotate_with_imagemagick fs ctx p d a).2.1 ≠ [] := by
  unfold RJ.rotate_with_imagemagick
  dsimp only
  repeat' split
  all_goals intro c h
  all_goals first
    | exact RJOutcome.noConfusion (show RJOutcome.finished = RJOutcome.exited c from h)
    | exact RJOutcome.noConfusion (show RJOutcome.diverged = RJOutcome.exited c from h)
    | (injection h with h'
       subst h'
       exact ⟨rfl, by simp⟩)

theorem rj_rotate_jpeg_exit (fs : FS) (ctx : RotCtx) (p d : String) :
    ∀ c, (RJ.rotate_jpeg fs ctx p d).2.2 = RJOutcome.exited c →
      c = 1 ∧ (RJ.rotate_jpeg fs ctx p d).2.1 ≠ [] := by
  unfold RJ.rotate_jpeg
  cases hmap : rotation_map d with
  | none =>
    dsimp only
    intro c h
    injection h with h'
    subst h'
    exact ⟨rfl, by simp⟩
  | some angle =>
    dsimp only
    by_cases hf : fs.isfile p = false
    · rw [if_pos hf]
      intro c h
      injection h with h'
      subst h'
      exact ⟨rfl, by simp⟩
    · rw [if_neg hf]
      cases hft : get_file_type p with
      | none =>
        dsimp only
        intro c h
        injection h with h'
        subst h'
        exact ⟨rfl, by simp⟩
      | some ft =>
        dsimp only
        rcases get_file_type_cases hft with rfl | rfl
        · rw [if_pos rfl]
          exact rj_jpegtran_exit fs ctx p d angle
        · rw [if_neg (by decide), if_pos rfl]
          exact rj_imagemagick_exit fs ctx p d angle

/-! ## Helpers for the safe-replace invariant -/

theorem isfile_lookup {fs : FS} {p : String} (h : fs.isfile p = true) :
    ∃ c, fs.lookup p = some (Entry.file c) := by
  unfold FS.isfile at h
  cases hl : fs.lookup p with
  | none => rw [hl] at h; simp at h
  | some e =>
    cases e with
    | file c => exact ⟨c, rfl⟩
    | dir => rw [hl] at h; simp at h

theorem lookup_cleanup_setset (fs : FS) (tmp q : String) (c0 c1 : List Nat)
    (htmp : fs.lookup tmp = none) :
    (cleanupTmp ((fs.setEntry tmp (Entry.file c0)).setEntry tmp (Entry.file c1)) tmp).lookup q
      = fs.lookup q := by
  rw [cleanupTmp_lookup]
  by_cases hq : q = tmp
  · subst hq; simp [htmp]
  · simp [hq]

theorem lookup_cleanup_setrem (fs : FS) (tmp q : String) (c0 : List Nat)
    (htmp : fs.lookup tmp = none) :
    (cleanupTmp ((fs.setEntry tmp (Entry.file c0)).removePath tmp) tmp).lookup q
      = fs.lookup q := by
  rw [cleanupTmp_lookup]
  by_cases hq : q = tmp
  · subst hq; simp [htmp]
  · simp [hq]

/-! ## Claim theorems -/

/-- C2 (amended): for rotate.py's `rotate_with_jpegtran`, (a) the source file
is replaced (the function succeeds) only if the external tool exited 0, its
output file exists with non-empty content, and the backup copy succeeded;
(b) on any failure the source entry is unchanged and the temporary file is
gone; (c) if the tool exits non-zero the whole filesystem is unchanged — in
particular the source is byte-for-byte intact and no backup file was
created.  (rotate_jpeg.py violates the original claim; see the
counterexample.)  Hypotheses: the source is a regular file and the
temporary name picked by `tempfile` is fresh. -/
theorem claim2_amended (fs : FS) (ctx : RotCtx) (filepath direction rotation_angle : String)
    (hsrc : fs.isfile filepath = true)
    (htmp : fs.lookup ctx.tmpPath = none)
    (hne : ctx.tmpPath ≠ filepath) :
    ((rotate_with_jpegtran fs ctx filepath direction rotation_angle).2.2 = true →
      ctx.tool.returncode = 0 ∧ (∃ c, ctx.tool.output = some c ∧ c ≠ []) ∧
        ctx.copyOk = true) ∧
    ((rotate_with_jpegtran fs ctx filepath direction rotation_angle).2.2 = false →
      (rotate_with_jpegtran fs ctx filepath direction rotation_angle).1.lookup filepath
          = fs.lookup filepath ∧
      (rotate_with_jpegtran fs ctx filepath direction rotation_angle).1.pathExists
          ctx.tmpPath = false) ∧
    (ctx.tool.returncode ≠ 0 →
      ∀ q, (rotate_with_jpegtran fs ctx filepath direction rotation_angle).1.lookup q
          = fs.lookup q) := by
  have hpt : ¬ filepath = ctx.tmpPath := fun hh => hne hh.symm
  obtain ⟨cc, hcc⟩ := isfile_lookup hsrc
  unfold rotate_with_jpegtran
  dsimp only
  by_cases h1 : ctx.tmpOk = false
  · rw [if_pos h1]
    exact ⟨fun h => absurd (show false = true from h) (by decide),
      fun _ => ⟨rfl, by simp [FS.pathExists, htmp]⟩,
      fun _ _ => rfl⟩
  · rw [if_neg h1]
    cases hout : ctx.tool.output with
    | none =>
      dsimp only
      by_cases h2 : ctx.tool.returncode ≠ 0
      · rw [if_pos h2]
        exact ⟨fun h => absurd (show false = true from h) (by decide),
          fun _ => ⟨lookup_cleanup_setrem fs ctx.tmpPath filepath [] htmp,
            cleanupTmp_not_exists _ _⟩,
          fun _ q => lookup_cleanup_setrem fs ctx.tmpPath q [] htmp⟩
      · rw [if_neg h2]
        rw [if_pos (Or.inl (by simp [FS.pathExists]))]
        exact ⟨fun h => absurd (show false = true from h) (by decide),
          fun _ => ⟨lookup_cleanup_setrem fs ctx.tmpPath filepath [] htmp,
            cleanupTmp_not_exists _ _⟩,
          fun hrc => absurd hrc h2⟩
    | some c =>
      dsimp only
      by_cases h2 : ctx.tool.returncode ≠ 0
      · rw [if_pos h2]
        exact ⟨fun h => absurd (show false = true from h) (by decide),
          fun _ => ⟨lookup_cleanup_setset fs ctx.tmpPath filepath [] c htmp,
            cleanupTmp_not_exists _ _⟩,
          fun _ q => lookup_cleanup_setset fs ctx.tmpPath q [] c htmp⟩
      · rw [if_neg h2]
        by_cases hc : c = []
        · subst hc
          rw [if_pos (Or.inr (by simp [FS.getsize]))]
          exact ⟨fun h => absurd (show false = true from h) (by decide),
            fun _ => ⟨lookup_cleanup_setset fs ctx.tmpPath filepath [] [] htmp,
              cleanupTmp_not_exists _ _⟩,
            fun hrc => absurd hrc h2⟩
        · have hcond : ¬(((fs.setEntry ctx.tmpPath (Entry.file [])).setEntry ctx.tmpPath
              (Entry.file c)).pathExists ctx.tmpPath = false ∨
              ((fs.setEntry ctx.tmpPath (Entry.file [])).setEntry ctx.tmpPath
              (Entry.file c)).getsize ctx.tmpPath = some 0) := by
            rintro (hA | hB)
            · simp [FS.pathExists] at hA
            · simp [FS.getsize] at hB
              exact hc hB
          rw [if_neg hcond]
          have hfs2p : ((fs.setEntry ctx.tmpPath (Entry.file [])).setEntry ctx.tmpPath
              (Entry.file c)).lookup filepath = fs.lookup filepath := by simp [hpt]
          rcases hens : ensure_backup_dir ((fs.setEntry ctx.tmpPath (Entry.file [])).setEntry
              ctx.tmpPath (Entry.file c)) ctx (dirname filepath) with ⟨notes, ob⟩
          cases ob with
          | none =>
            dsimp only
            exact ⟨fun h => absurd (show false = true from h) (by decide),
              fun _ => ⟨lookup_cleanup_setset fs ctx.tmpPath filepath [] c htmp,
                cleanupTmp_not_exists _ _⟩,
              fun hrc => absurd hrc h2⟩
          | some pr =>
            obtain ⟨fs3, bdir⟩ := pr
            dsimp only
            have hfs3p : fs3.lookup filepath = fs.lookup filepath := by
              rw [ensure_backup_dir_preserves hens filepath
                (by rw [hfs2p, hcc]; simp), hfs2p]
            cases huniq : get_unique_backup_path fs3.pathExists bdir (basename filepath) with
            | none =>
              dsimp only
              exact ⟨fun h => absurd (show false = true from h) (by decide),
                fun _ => ⟨by rw [cleanupTmp_lookup]; simp [hpt, hfs3p],
                  cleanupTmp_not_exists _ _⟩,
                fun hrc => absurd hrc h2⟩
            | some bp =>
              dsimp only
              have hbpn : fs3.lookup bp = none :=
                FS.lookup_eq_none_of_not_exists (get_unique_ex_false huniq)
              have hpbp : ¬ filepath = bp := by
                intro hh
                have hx := hfs3p.trans hcc
                rw [hh, hbpn] at hx
                exact Option.noConfusion hx
              by_cases hcp : ctx.copyOk = false
              · rw [if_pos hcp]
                exact ⟨fun h => absurd (show false = true from h) (by decide),
                  fun _ => ⟨by rw [cleanupTmp_lookup]; simp [hpt, hfs3p],
                    cleanupTmp_not_exists _ _⟩,
                  fun hrc => absurd hrc h2⟩
              · rw [if_neg hcp]
                cases hlk : fs3.lookup filepath with
                | none =>
                  rw [hfs3p, hcc] at hlk
                  exact Option.noConfusion hlk
                | some e =>
                  cases e with
                  | dir =>
                    rw [hfs3p, hcc] at hlk
                    simp at hlk
                  | file src =>
                    dsimp only
                    cases hrep : (fs3.setEntry bp (Entry.file src)).replacePath
                        ctx.tmpPath filepath with
                    | none =>
                      dsimp only
                      refine ⟨fun h => absurd (show false = true from h) (by decide),
                        fun _ => ⟨?_, cleanupTmp_not_exists _ _⟩,
                        fun hrc => absurd hrc h2⟩
                      rw [cleanupTmp_lookup]
                      simp [hpt, hpbp, hfs3p]
                    | some fs5 =>
                      dsimp only
                      exact ⟨fun _ => ⟨not_not.mp h2, ⟨c, rfl, hc⟩,
                          by revert hcp; cases ctx.copyOk <;> simp⟩,
                        fun h => absurd (show true = false from h) (by decide),
                        fun hrc => absurd hrc h2⟩

/-- C2 witness: a concrete run with a failing tool leaves the source entry
of the filesystem unchanged, and the operation reports failure. -/
theorem claim2_witness :
    (rotate_with_jpegtran fsOne ctxRc1 "/pics/a.jpg" "r" "90").1.lookup "/pics/a.jpg"
        = fsOne.lookup "/pics/a.jpg" ∧
    (rotate_with_jpegtran fsOne ctxRc1 "/pics/a.jpg" "r" "90").2.2 = false :=
  ⟨(claim2_amended fsOne ctxRc1 "/pics/a.jpg" "r" "90" (by decide) (by decide)
      (by decide)).2.2 (by decide) "/pics/a.jpg",
   by decide⟩

/-- C2 counterexample: in rotate_jpeg.py, when the tool exits 0 but writes a
zero-byte output, the source file IS replaced (by the empty content) and the
run finishes as a success — the claimed invariant "replaced only if the
output file is non-empty; otherwise the original is unchanged" is false on
this code. -/
theorem claim2_counterexample :
    (RJ.rotate_with_jpegtran fsTwo ctxEmptyOutD "/d/b.jpg" "r" "90").2.2
        = RJOutcome.finished ∧
    (RJ.rotate_with_jpegtran fsTwo ctxEmptyOutD "/d/b.jpg" "r" "90").1.lookup "/d/b.jpg"
        = some (Entry.file []) ∧
    fsTwo.lookup "/d/b.jpg" = some (Entry.file [7]) := by
  decide

/-- C3 (amended): for rotate.py's `rotate_with_jpegtran`, a tool run that
exits 0 with a missing or zero-size output file makes the operation fail
with exactly the `EmptyOrMissingOutput`-class message, and the whole
filesystem — in particular the source — is unchanged.  (rotate_jpeg.py has
no such check; see the counterexample.) -/
theorem claim3_amended (fs : FS) (ctx : RotCtx) (filepath direction rotation_angle : String)
    (h0 : ctx.tool.returncode = 0)
    (hout : ctx.tool.output = none ∨ ctx.tool.output = some [])
    (htmpOk : ctx.tmpOk = true)
    (htmp : fs.lookup ctx.tmpPath = none) :
    (rotate_with_jpegtran fs ctx filepath direction rotation_angle).2.1
      = ["Error: Rotation produced empty or missing file"] ∧
    (rotate_with_jpegtran fs ctx filepath direction rotation_angle).2.2 = false ∧
    ∀ q, (rotate_with_jpegtran fs ctx filepath direction rotation_angle).1.lookup q
      = fs.lookup q := by
  unfold rotate_with_jpegtran
  dsimp only
  rw [if_neg (by simp [htmpOk])]
  rcases hout with ho | ho
  · rw [ho]
    dsimp only
    rw [if_neg (by simp [h0]), if_pos (Or.inl (by simp [FS.pathExists]))]
    exact ⟨rfl, rfl, fun q => lookup_cleanup_setrem fs ctx.tmpPath q [] htmp⟩
  · rw [ho]
    dsimp only
    rw [if_neg (by simp [h0]), if_pos (Or.inr (by simp [FS.getsize]))]
    exact ⟨rfl, rfl, fun q => lookup_cleanup_setset fs ctx.tmpPath q [] [] htmp⟩

/-- C3 witness: a concrete zero-byte-output run of rotate.py fails with the
`EmptyOrMissingOutput` message and leaves the source bytes unchanged. -/
theorem claim3_witness :
    (rotate_with_jpegtran fsOne ctxEmptyOut "/pics/a.jpg" "r" "90").2.1
        = ["Error: Rotation produced empty or missing file"] ∧
    (rotate_with_jpegtran fsOne ctxEmptyOut "/pics/a.jpg" "r" "90").2.2 = false ∧
    (rotate_with_jpegtran fsOne ctxEmptyOut "/pics/a.jpg" "r" "90").1.lookup "/pics/a.jpg"
        = fsOne.lookup "/pics/a.jpg" :=
  have h := claim3_amended fsOne ctxEmptyOut "/pics/a.jpg" "r" "90" (by decide)
    (Or.inr (by decide)) (by decide) (by decide)
  ⟨h.1, h.2.1, h.2.2 "/pics/a.jpg"⟩

/-- C3 counterexample: in rotate_jpeg.py, the same zero-byte-output run does
NOT fail — it completes as a success and the source has been replaced by the
empty output, so the claim "the operation fails with an
EmptyOrMissingOutput-class error and the source file is unchanged" is false
on this code. -/
theorem claim3_counterexample :
    (RJ.rotate_with_jpegtran fsOne ctxEmptyOut "/pics/a.jpg" "r" "90").2.2
        = RJOutcome.finished ∧
    (RJ.rotate_with_jpegtran fsOne ctxEmptyOut "/pics/a.jpg" "r" "90").1.lookup "/pics/a.jpg"
        = some (Entry.file []) := by
  decide

theorem jpegtran_tmp_gone (fs : FS) (ctx : RotCtx) (p d a : String)
    (hfail : ctx.tool.returncode ≠ 0 ∨ ctx.tool.output = none ∨ ctx.tool.output = some [])
    (htmp : fs.lookup ctx.tmpPath = none) :
    (rotate_with_jpegtran fs ctx p d a).1.pathExists ctx.tmpPath = false := by
  unfold rotate_with_jpegtran
  dsimp only
  by_cases h1 : ctx.tmpOk = false
  · rw [if_pos h1]
    simp [FS.pathExists, htmp]
  · rw [if_neg h1]
    by_cases h2 : ctx.tool.returncode ≠ 0
    · cases hoc : ctx.tool.output with
      | none =>
        dsimp only
        rw [if_pos h2]
        exact cleanupTmp_not_exists _ _
      | some c =>
        dsimp only
        rw [if_pos h2]
        exact cleanupTmp_not_exists _ _
    · rcases hfail with hf | hf | hf
      · exact absurd hf h2
      · rw [hf]
        dsimp only
        rw [if_neg h2, if_pos (Or.inl (by simp [FS.pathExists]))]
        exact cleanupTmp_not_exists _ _
      · rw [hf]
        dsimp only
        rw [if_neg h2, if_pos (Or.inr (by simp [FS.getsize]))]
        exact cleanupTmp_not_exists _ _

theorem magick_tmp_gone (fs : FS) (ctx : RotCtx) (p d a : String)
    (hfail : ctx.tool.returncode ≠ 0 ∨ ctx.tool.output = none ∨ ctx.tool.output = some [])
    (htmp : fs.lookup ctx.tmpPath = none) :
    (rotate_with_imagemagick fs ctx p d a).1.pathExists ctx.tmpPath = false := by
  unfold rotate_with_imagemagick
  dsimp only
  by_cases h1 : ctx.tmpOk = false
  · rw [if_pos h1]
    simp [FS.pathExists, htmp]
  · rw [if_neg h1]
    by_cases h2 : ctx.tool.returncode ≠ 0
    · cases hoc : ctx.tool.output with
      | none =>
        dsimp only
        rw [if_pos h2]
        exact cleanupTmp_not_exists _ _
      | some c =>
        dsimp only
        rw [if_pos h2]
        exact cleanupTmp_not_exists _ _
    · rcases hfail with hf | hf | hf
      · exact absurd hf h2
      · rw [hf]
        dsimp only
        rw [if_neg h2, if_pos (Or.inl (by simp [FS.pathExists]))]
        exact cleanupTmp_not_exists _ _
      · rw [hf]
        dsimp only
        rw [if_neg h2, if_pos (Or.inr (by simp [FS.getsize]))]
        exact cleanupTmp_not_exists _ _

/-- C4 (amended): in rotate.py, for every failure of the external-tool
success criteria (non-zero exit, missing output, or zero-size output), both
rotation routines delete the temporary output file (when it was created at
a fresh name) before returning.  (rotate_jpeg.py leaves the temporary file
behind on a non-zero tool exit; see the counterexample.) -/
theorem claim4_amended (fs : FS) (ctx : RotCtx) (p d a : String)
    (hfail : ctx.tool.returncode ≠ 0 ∨ ctx.tool.output = none ∨ ctx.tool.output = some [])
    (htmp : fs.lookup ctx.tmpPath = none) :
    (rotate_with_jpegtran fs ctx p d a).1.pathExists ctx.tmpPath = false ∧
    (rotate_with_imagemagick fs ctx p d a).1.pathExists ctx.tmpPath = false :=
  ⟨jpegtran_tmp_gone fs ctx p d a hfail htmp, magick_tmp_gone fs ctx p d a hfail htmp⟩

/-- C4 witness: a concrete failing-tool run of rotate.py leaves no temporary
file behind. -/
theorem claim4_witness :
    (rotate_with_jpegtran fsOne ctxRc1 "/pics/a.jpg" "r" "90").1.pathExists
        ctxRc1.tmpPath = false ∧
    (rotate_with_imagemagick fsOne ctxRc1 "/pics/a.jpg" "r" "90").1.pathExists
        ctxRc1.tmpPath = false :=
  claim4_amended fsOne ctxRc1 "/pics/a.jpg" "r" "90" (Or.inl (by decide)) (by decide)

/-- C4 counterexample: in rotate_jpeg.py, when the tool exits non-zero the
routine exits via `sys.exit(1)` (uncaught by `except Exception`) and the
temporary output file is still present afterwards — the claim "the
temporary output file, if it was created, is deleted before the rotation
routine returns" is false on this code. -/
theorem claim4_counterexample :
    (RJ.rotate_with_jpegtran fsTwo ctxFailTool "/d/b.jpg" "r" "90").2.2
        = RJOutcome.exited 1 ∧
    (RJ.rotate_with_jpegtran fsTwo ctxFailTool "/d/b.jpg" "r" "90").1.pathExists
        "/d/tmpZ.jpg" = true := by
  decide

/-- C5: the direction table of both sources resolves the valid direction
tokens to exactly the clockwise magnitudes 270 (left), 90 (right) and 180
(flip).  The resolution is the pure function `rotation_map` (a dictionary
lookup in the sources); it takes no filesystem and produces no output, so
it has no side effects. -/
theorem claim5_confirmed :
    rotation_map "l" = some "270" ∧ rotation_map "r" = some "90" ∧
      rotation_map "f" = some "180" :=
  ⟨by decide, by decide, by decide⟩

theorem name_ne_cand1 (bd fn : String) (hno : '/' ∉ fn.data) :
    joinPath bd fn ≠ candName bd (splitext fn).1 (splitext fn).2 1 := by
  have hrec : (splitext fn).1 ++ (splitext fn).2 = fn := splitext_append fn
  have hdata : (splitext fn).1.data ++ (splitext fn).2.data = fn.data := by
    rw [← strData_append, hrec]
  have hd1 : ((splitext fn).1 ++ "_" ++ Nat.repr 1 ++ (splitext fn).2).data
      = (((splitext fn).1.data ++ ['_']) ++ ['1']) ++ (splitext fn).2.data := by
    rw [strData_append, strData_append, strData_append]
    rfl
  show joinPath bd fn
      ≠ joinPath bd ((splitext fn).1 ++ "_" ++ Nat.repr 1 ++ (splitext fn).2)
  apply joinPath_ne_of_length_ne
  · intro hh
    cases hl : fn.data with
    | nil => rw [hl] at hh; exact Option.noConfusion hh
    | cons ch cs =>
      rw [hl] at hh
      have hch : ch = '/' := by simpa using hh
      apply hno
      rw [hl, hch]
      exact List.mem_cons_self _ _
  · intro hh
    rw [hd1] at hh
    cases hb : (splitext fn).1.data with
    | nil =>
      rw [hb] at hh
      simp at hh
    | cons ch cs =>
      rw [hb] at hh
      simp at hh
      apply hno
      rw [← hdata, hb, hh]
      exact List.mem_append_left _ (List.mem_cons_self _ _)
  · rw [hd1]
    simp only [List.length_append, List.length_cons, List.length_nil]
    have hlen := congrArg List.length hdata
    simp only [List.length_append] at hlen
    omega

/-- C6: rotate.py's `get_unique_backup_path` (and identically
rotate_jpeg.py's, on the runs where it terminates) (1) uses the filename
unmodified when no file of that name exists in the backup directory;
(2) otherwise returns the first unused name of the form
`base_k.ext`, trying `k` = 1, 2, … in increasing order; and (3) backing up
the same filename twice into the same (sufficiently fresh) backup directory
produces two distinct names, the second suffixed `_1`.  The ambient
filesystem is abstracted by the `os.path.exists` oracle `ex`. -/
theorem claim6_confirmed (ex : String → Bool) (backup_dir filename : String) :
    (ex (joinPath backup_dir filename) = false →
      get_unique_backup_path ex backup_dir filename
        = some (joinPath backup_dir filename)) ∧
    (∀ k, 1 ≤ k → k < 10000 → ex (joinPath backup_dir filename) = true →
      (∀ j, 1 ≤ j → j < k →
        ex (candName backup_dir (splitext filename).1 (splitext filename).2 j) = true) →
      ex (candName backup_dir (splitext filename).1 (splitext filename).2 k) = false →
      get_unique_backup_path ex backup_dir filename
        = some (candName backup_dir (splitext filename).1 (splitext filename).2 k)) ∧
    ('/' ∉ filename.data →
      ex (joinPath backup_dir filename) = false →
      ex (candName backup_dir (splitext filename).1 (splitext filename).2 1) = false →
      get_unique_backup_path ex backup_dir filename
          = some (joinPath backup_dir filename) ∧
      get_unique_backup_path (fun p => p == joinPath backup_dir filename || ex p)
          backup_dir filename
          = some (candName backup_dir (splitext filename).1 (splitext filename).2 1) ∧
      joinPath backup_dir filename
          ≠ candName backup_dir (splitext filename).1 (splitext filename).2 1) := by
  have hfirst : ∀ (e : String → Bool), e (joinPath backup_dir filename) = false →
      get_unique_backup_path e backup_dir filename
        = some (joinPath backup_dir filename) := by
    intro e he
    unfold get_unique_backup_path
    dsimp only
    rw [if_pos he]
  refine ⟨hfirst ex, ?_, ?_⟩
  · intro k hk1 hk2 hname hall hk
    exact get_unique_found hk1 hk2 hname hall hk
  · intro hno h0 h1
    have hcne := name_ne_cand1 backup_dir filename hno
    refine ⟨hfirst ex h0, ?_, hcne⟩
    have hb : (candName backup_dir (splitext filename).1 (splitext filename).2 1
        == joinPath backup_dir filename) = false :=
      beq_eq_false_iff_ne.mpr (Ne.symm hcne)
    exact @get_unique_found (fun p => p == joinPath backup_dir filename || ex p)
      backup_dir filename 1 (le_refl 1) (by omega) (by simp)
      (fun j hj1 hj2 => absurd hj2 (by omega)) (by simp [hb, h1])

/-- C6 witness: in a fresh backup directory, `photo.jpg` is backed up under
its own name, and a second backup of the same filename lands at
`photo_1.jpg`. -/
theorem claim6_witness :
    get_unique_backup_path (fun _ => false) "/b" "photo.jpg"
        = some (joinPath "/b" "photo.jpg") ∧
    get_unique_backup_path (fun p => p == joinPath "/b" "photo.jpg" || (fun _ => false) p)
        "/b" "photo.jpg"
        = some (candName "/b" (splitext "photo.jpg").1 (splitext "photo.jpg").2 1) :=
  have h := (claim6_confirmed (fun _ => false) "/b" "photo.jpg").2.2 (by decide) rfl rfl
  ⟨h.1, h.2.1⟩

/-- C7 (amended): rotate.py's backup-name search is bounded — it returns the
`BackupNameExhausted` error (`none`) exactly when the unsuffixed name and
every suffixed candidate `_1` … `_9999` (the `max_attempts = 10000` bound)
are taken, and hence terminates on every input.  rotate_jpeg.py's search,
however, has no bound: on a directory where every candidate name is taken it
is still running after any number of iterations.  (The original claim, which
asserts the 10000-attempt bound for the repository's search as such, is
refuted by the rotate_jpeg.py loop; see the counterexample.) -/
theorem claim7_amended (ex : String → Bool) (backup_dir filename : String) :
    (get_unique_backup_path ex backup_dir filename = none ↔
      ex (joinPath backup_dir filename) = true ∧
      ∀ k, 1 ≤ k → k < 10000 →
        ex (candName backup_dir (splitext filename).1 (splitext filename).2 k) = true) ∧
    (∀ fuel counter,
      RJ.uniqueSearch (fun _ => true) backup_dir (splitext filename).1
        (splitext filename).2 counter fuel = RJSearch.fuelOut) :=
  ⟨get_unique_eq_none_iff ex backup_dir filename,
   fun fuel counter => rjUniqueSearch_allTaken backup_dir _ _ fuel counter⟩

/-- C7 witness: with every name taken, rotate.py's search terminates with
the exhaustion error, while rotate_jpeg.py's loop is still running after
10001 iterations. -/
theorem claim7_witness :
    get_unique_backup_path (fun _ => true) "/b" "x.jpg" = none ∧
    RJ.uniqueSearch (fun _ => true) "/b" (splitext "x.jpg").1 (splitext "x.jpg").2 1 10001
      = RJSearch.fuelOut :=
  ⟨(claim7_amended (fun _ => true) "/b" "x.jpg").1.mpr ⟨rfl, fun _ _ _ => rfl⟩,
   (claim7_amended (fun _ => true) "/b" "x.jpg").2 10001 1⟩

/-- C7 counterexample: rotate_jpeg.py's `get_unique_backup_path` given a
directory in which every candidate name is taken has neither returned nor
raised a `BackupNameExhausted`-class error after 10001 loop iterations —
there is no 10000-attempt bound in that file (its loop is `while True` with
no counter limit), refuting the claim as stated for this code. -/
theorem claim7_counterexample :
    RJ.get_unique_backup_path (fun _ => true) "/b" "photo.jpg" 10001
      = RJSearch.fuelOut := by
  unfold RJ.get_unique_backup_path
  dsimp only
  rw [if_neg (by simp)]
  exact rjUniqueSearch_allTaken "/b" _ _ 10001 1

/-- C1 (amended): in one-shot mode with a well-formed argument list, when
the rotation operation fails, both programs print a human-readable
diagnostic, but only rotate_jpeg.py exits with a non-zero status (always 1);
rotate.py's `main` discards the result of `rotate_image` (rotate.py:366) and
exits 0 even on failure.  (The original claim, that every one-shot failure
exits non-zero, is refuted by rotate.py; see the counterexample.) -/
theorem claim1_amended (fs : FS) (ctx : RotCtx) (events : List Ev) (prog p d : String) :
    ((rotate_image fs ctx p (pyLower d)).2.2 = false →
      (rotate_main fs ctx events [prog, p, d]).2.2 = 0 ∧
      ∃ m ∈ (rotate_main fs ctx events [prog, p, d]).2.1, isErrorLine m) ∧
    (∀ c, (RJ.main fs ctx [prog, p, d]).2.2 = RJOutcome.exited c →
      c = 1 ∧ (RJ.main fs ctx [prog, p, d]).2.1 ≠ []) := by
  have hmain : rotate_main fs ctx events [prog, p, d]
      = ((rotate_image fs ctx p (pyLower d)).1,
         (rotate_image fs ctx p (pyLower d)).2.1, 0) := by
    unfold rotate_main
    rw [if_neg (by simp), if_pos (by simp)]
    rfl
  have hrj : RJ.main fs ctx [prog, p, d] = RJ.rotate_jpeg fs ctx p (pyLower d) := by
    unfold RJ.main
    rw [if_neg (by simp)]
    rfl
  constructor
  · intro hfail
    rw [hmain]
    exact ⟨rfl, rotate_image_fail_msg fs ctx p (pyLower d) hfail⟩
  · intro c hc
    rw [hrj] at hc ⊢
    exact rj_rotate_jpeg_exit fs ctx p (pyLower d) c hc

/-- C1 witness: a concrete failing one-shot invocation — rotate.py prints a
diagnostic and exits 0; the hypothesis (the rotation failed) is discharged
by evaluation. -/
theorem claim1_witness :
    (rotate_main fsEmpty ctxGood [] ["rotate.py", "missing.jpg", "r"]).2.2 = 0 ∧
    ∃ m ∈ (rotate_main fsEmpty ctxGood [] ["rotate.py", "missing.jpg", "r"]).2.1,
      isErrorLine m :=
  (claim1_amended fsEmpty ctxGood [] "rotate.py" "missing.jpg" "r").1 (by decide)

/-- C1 counterexample: `rotate.py missing.jpg r` fails (file not found),
prints the diagnostic — and exits with status 0, refuting the claim that
every one-shot failure exits with a non-zero status. -/
theorem claim1_counterexample :
    (rotate_main fsEmpty ctxGood [] ["rotate.py", "missing.jpg", "r"]).2.2 = 0 ∧
    (rotate_main fsEmpty ctxGood [] ["rotate.py", "missing.jpg", "r"]).2.1
      = ["Error: File not found: missing.jpg"] := by
  decide

/-! ## Interactive-mode lemmas -/

theorem step_continues (fs : FS) (env : StepEnv) (raw : String)
    (hnx : ¬ pyLower (pyStrip raw) ∈ (["exit", "quit", "q"] : List String)) :
    (interactive_step fs env raw).2.2.1 = true := by
  unfold interactive_step
  dsimp only
  rw [if_neg hnx]
  by_cases he : pyStrip raw = ""
  · rw [if_pos he]
  · rw [if_neg he]
    repeat' split
    all_goals rfl

theorem step_rotate_fail_msg (fs : FS) (env : StepEnv) (raw : String) :
    (interactive_step fs env raw).2.2.2 = some false →
    ∃ m ∈ (interactive_step fs env raw).2.1, isErrorLine m := by
  unfold interactive_step
  dsimp only
  repeat' split
  all_goals intro h
  all_goals first
    | exact Option.noConfusion (show (none : Option Bool) = some false from h)
    | (obtain ⟨m, hm, he⟩ := rotate_image_fail_msg fs env.rctx _ _ (Option.some.inj h)
       first
         | exact ⟨m, List.mem_append_left _ (List.mem_append_right _ hm), he⟩
         | exact ⟨m, List.mem_append_left _ hm, he⟩)

theorem step_no_selection (fs : FS) (env : StepEnv) (raw : String)
    (hnx : ¬ pyLower (pyStrip raw) ∈ (["exit", "quit", "q"] : List String))
    (hlen : (pySplit (pyStrip raw)).length = 1)
    (hdir : pyLower ((pySplit (pyStrip raw)).headD "") ∈ (["l", "r", "f"] : List String))
    (hsel : (get_finder_selection fs env.finder).2 = none ∨
      (get_finder_selection fs env.finder).2 = some "") :
    "Error: No file selected in Finder, or selection is a folder"
      ∈ (interactive_step fs env raw).2.1 := by
  unfold interactive_step
  dsimp only
  rw [if_neg hnx]
  have he : ¬ pyStrip raw = "" := by
    intro hh
    rw [hh] at hlen
    exact absurd hlen (by decide)
  rw [if_neg he, if_pos ⟨hlen, hdir⟩]
  rcases hsel with hs | hs
  · rw [hs]
    dsimp only
    exact List.mem_append_right _ (List.mem_cons_self _ _)
  · rw [hs]
    dsimp only
    rw [if_pos rfl]
    exact List.mem_append_right _ (List.mem_cons_self _ _)

theorem loop_eof (events : List Ev) : ∀ fs : FS,
    (∀ e ∈ events, (∀ r v, e = Ev.line r v →
      ¬ pyLower (pyStrip r) ∈ (["exit", "quit", "q"] : List String)) ∧
      e ≠ Ev.interrupt) →
    (interactive_loop fs events).2.2 = StopReason.eof := by
  induction events with
  | nil => intro fs _; rfl
  | cons e rest ih =>
    intro fs h
    cases e with
    | interrupt => exact absurd rfl (h _ (List.mem_cons_self _ _)).2
    | line raw env =>
      have hnx := (h _ (List.mem_cons_self _ _)).1 raw env rfl
      unfold interactive_loop
      dsimp only
      rw [if_pos (step_continues fs env raw hnx)]
      exact ih _ (fun e' he' => h e' (List.mem_cons_of_mem _ he'))

/-- C8: the resolver, as invoked by rotate.py's `main` (which lowercases the
direction token, rotate.py:365): an invalid direction token — compared
case-insensitively — fails with the `InvalidDirection` message; a valid
token with a path that is not an existing regular file fails with the
`FileNotFound` message; a valid token and existing file whose lowercased
extension is not `.jpg`/`.jpeg`/`.png` fails with the `UnsupportedType`
message.  The first two conjuncts characterise what "invalid token" and
"unsupported extension" mean in the code. -/
theorem claim8_confirmed (fs : FS) (ctx : RotCtx) (p d : String) :
    (rotation_map (pyLower d) = none ↔
      ¬(pyLower d = "l" ∨ pyLower d = "r" ∨ pyLower d = "f")) ∧
    (get_file_type p = none ↔
      ¬(pyLower (splitext p).2 = ".jpg" ∨ pyLower (splitext p).2 = ".jpeg" ∨
        pyLower (splitext p).2 = ".png")) ∧
    (rotation_map (pyLower d) = none →
      rotate_image fs ctx p (pyLower d)
        = (fs, ["Error: Invalid direction \x27" ++ pyLower d ++
            "\x27. Use \x27l\x27, \x27r\x27, or \x27f\x27"], false)) ∧
    (rotation_map (pyLower d) ≠ none → fs.isfile p = false →
      rotate_image fs ctx p (pyLower d)
        = (fs, ["Error: File not found: " ++ p], false)) ∧
    (rotation_map (pyLower d) ≠ none → fs.isfile p = true → get_file_type p = none →
      rotate_image fs ctx p (pyLower d)
        = (fs, ["Error: Unsupported file type \x27" ++
            (if (splitext p).2 = "" then "(no extension)" else (splitext p).2) ++ "\x27",
           "Supported formats: .jpg, .jpeg, .png"], false)) := by
  refine ⟨?_, ?_, ?_, ?_, ?_⟩
  · unfold rotation_map
    split_ifs with h1 h2 h3
    · simp [h1]
    · simp [h1, h2]
    · simp [h1, h2, h3]
    · simp [h1, h2, h3]
  · unfold get_file_type
    dsimp only
    split_ifs with h1 h2
    · rcases h1 with h1 | h1 <;> simp [h1]
    · simp [h2]
    · push_neg at h1
      simp [h1.1, h1.2, h2]
  · intro h
    unfold rotate_image
    rw [h]
  · intro h hf
    unfold rotate_image
    cases hm : rotation_map (pyLower d) with
    | none => exact absurd hm h
    | some angle =>
      dsimp only
      rw [if_pos hf]
  · intro h hf hft
    unfold rotate_image
    cases hm : rotation_map (pyLower d) with
    | none => exact absurd hm h
    | some angle =>
      dsimp only
      rw [if_neg (by simp [hf]), hft]

/-- C8 witness: concrete failing resolutions — an invalid token (compared
case-insensitively), a missing file, and an unsupported extension. -/
theorem claim8_witness :
    rotate_image fsEmpty ctxGood "/a/b.gif" (pyLower "X")
      = (fsEmpty, ["Error: Invalid direction \x27x\x27. Use \x27l\x27, \x27r\x27, or \x27f\x27"],
         false) ∧
    rotate_image fsEmpty ctxGood "/a/b.jpg" (pyLower "R")
      = (fsEmpty, ["Error: File not found: /a/b.jpg"], false) ∧
    rotate_image fsGif ctxGood "/a/b.gif" (pyLower "R")
      = (fsGif, ["Error: Unsupported file type \x27.gif\x27",
         "Supported formats: .jpg, .jpeg, .png"], false) := by
  refine ⟨?_, ?_, ?_⟩
  · exact ((claim8_confirmed fsEmpty ctxGood "/a/b.gif" "X").2.2.1 (by decide)).trans
      (by decide)
  · exact ((claim8_confirmed fsEmpty ctxGood "/a/b.jpg" "R").2.2.2.1 (by decide)
      (by decide)).trans (by decide)
  · exact ((claim8_confirmed fsGif ctxGood "/a/b.gif" "R").2.2.2.2 (by decide)
      (by decide) (by decide)).trans (by decide)

/-- C9: in the interactive loop, (1) every line that is not an exit command
leaves the loop running, whatever happened while processing it; (2) whenever
the rotation invoked by a line fails, an error diagnostic is among the lines
printed for it; (3) a bare direction token whose Finder-selection query
yields nothing (no selection, a directory, a timeout, or a failed query)
prints the "no file selected" diagnostic and the loop continues; and (4) the
loop consumes its entire input — stopping only at end-of-input — when no
event is an exit command or an interrupt; by construction it stops only on
an exit token, end-of-input, or an interrupt. -/
theorem claim9_confirmed (fs : FS) (env : StepEnv) (raw : String) (events : List Ev) :
    (¬ isExitCommand raw → (interactive_step fs env raw).2.2.1 = true) ∧
    ((interactive_step fs env raw).2.2.2 = some false →
      ∃ m ∈ (interactive_step fs env raw).2.1, isErrorLine m) ∧
    (¬ isExitCommand raw →
      (pySplit (pyStrip raw)).length = 1 →
      pyLower ((pySplit (pyStrip raw)).headD "") ∈ (["l", "r", "f"] : List String) →
      ((get_finder_selection fs env.finder).2 = none ∨
        (get_finder_selection fs env.finder).2 = some "") →
      "Error: No file selected in Finder, or selection is a folder"
        ∈ (interactive_step fs env raw).2.1) ∧
    ((∀ e ∈ events, (∀ r v, e = Ev.line r v → ¬ isExitCommand r) ∧ e ≠ Ev.interrupt) →
      (interactive_loop fs events).2.2 = StopReason.eof) :=
  ⟨fun h => step_continues fs env raw h,
   step_rotate_fail_msg fs env raw,
   fun h1 h2 h3 h4 => step_no_selection fs env raw h1 h2 h3 h4,
   fun h => loop_eof events fs h⟩

/-- C9 witness: the bare input `r` with an empty Finder selection prints the
"no file selected" diagnostic, the loop continues, and a session consisting
of that single line ends at end-of-input. -/
theorem claim9_witness :
    (interactive_step fsEmpty envNoSel "r").2.2.1 = true ∧
    "Error: No file selected in Finder, or selection is a folder"
      ∈ (interactive_step fsEmpty envNoSel "r").2.1 ∧
    (interactive_loop fsEmpty [Ev.line "r" envNoSel]).2.2 = StopReason.eof := by
  have h := claim9_confirmed fsEmpty envNoSel "r" [Ev.line "r" envNoSel]
  refine ⟨h.1 (by decide), h.2.2.1 (by decide) (by decide) (by decide)
    (Or.inr (by decide)), h.2.2.2 ?_⟩
  intro e he
  rw [List.mem_singleton] at he
  subst he
  refine ⟨?_, by decide⟩
  intro r v hrv
  injection hrv with h1 h2
  subst h1
  decide

/-- C10: in the interactive loop, every line of two or more
whitespace-separated tokens is parsed by taking the last token, lowercased,
as the direction and the preceding tokens joined by single spaces — with
`backslash-space` and `backslash-apostrophe` unescaped — as the path
(`parse_path_and_direction`, from rotate.py:333-339); the step then invokes
the rotation with exactly that pair and continues.  `claimParseSpec` is the
claim-side restatement; the first conjunct is the refinement between the
two. -/
theorem claim10_confirmed (fs : FS) (env : StepEnv) (raw : String)
    (hnx : ¬ isExitCommand raw)
    (h2 : 2 ≤ (pySplit (pyStrip raw)).length) :
    claimParseSpec (pyStrip raw)
      = some (parse_path_and_direction (pySplit (pyStrip raw))) ∧
    interactive_step fs env raw
      = ((rotate_image fs env.rctx
            (parse_path_and_direction (pySplit (pyStrip raw))).1
            (parse_path_and_direction (pySplit (pyStrip raw))).2).1,
         (rotate_image fs env.rctx
            (parse_path_and_direction (pySplit (pyStrip raw))).1
            (parse_path_and_direction (pySplit (pyStrip raw))).2).2.1 ++ [""],
         true,
         some (rotate_image fs env.rctx
            (parse_path_and_direction (pySplit (pyStrip raw))).1
            (parse_path_and_direction (pySplit (pyStrip raw))).2).2.2) := by
  constructor
  · unfold claimParseSpec parse_path_and_direction
    dsimp only
    rw [if_pos h2]
  · unfold interactive_step
    dsimp only
    have hnx2 : ¬ pyLower (pyStrip raw) ∈ (["exit", "quit", "q"] : List String) := hnx
    rw [if_neg hnx2]
    have he : ¬ pyStrip raw = "" := by
      intro hh
      rw [hh] at h2
      exact absurd h2 (by decide)
    rw [if_neg he]
    have hnot1 : ¬((pySplit (pyStrip raw)).length = 1 ∧
        pyLower ((pySplit (pyStrip raw)).headD "") ∈ (["l", "r", "f"] : List String)) := by
      rintro ⟨ha, _⟩
      omega
    rw [if_neg hnot1, if_pos h2]

/-- C10 witness: a dragged-in path containing an escaped space parses to the
unescaped path with the lowercased trailing direction token. -/
theorem claim10_witness :
    claimParseSpec (pyStrip "/a/My\\ Photo.jpg R")
      = some (parse_path_and_direction (pySplit (pyStrip "/a/My\\ Photo.jpg R"))) ∧
    parse_path_and_direction (pySplit (pyStrip "/a/My\\ Photo.jpg R"))
      = ("/a/My Photo.jpg", "r") :=
  ⟨(claim10_confirmed fsEmpty envNoSel "/a/My\\ Photo.jpg R" (by decide) (by decide)).1,
   by decide⟩

end RotateSpec
